import Mathlib

/-!
# Verification of the scjs Content Manager client (`src/index.js`)

This file gives a shallow embedding of the request/session/upload/download
orchestration layer of the scjs library and proves the frozen claims about it.

Modelling conventions:
* JavaScript/JSON values are modelled by `scjs.JVal`; JSON numbers are
  modelled as integers (every value occurring in the code's control flow —
  status codes, `httpErrorCode` — is integral).  JS `null` and `undefined`
  are both modelled as `JVal.null` (the code never distinguishes them on the
  paths modelled here).
* The HTTP transport is an external collaborator (spec §1); it is modelled as
  a function `Nat → TransportResult` giving the transport-level result of the
  i-th request issued during a run, together with a running index.  The body
  of a transport response is modelled by `BodyKind`, which records the
  outcome of `JSON.parse` on the body text: an empty body, a body parsing to
  a JSON value, or a non-empty body that fails to parse (`SyntaxError`).
* `querystring.stringify`, `JSON.stringify`, `url.resolve` and the node
  `path` helpers are external collaborators; they are modelled by simple
  total functions (`qstringify`, `jsonEncode`, `urlResolve`, `pathBasename`,
  …) faithful on the inputs the claims exercise (no percent/character
  escaping, which no claim depends on).
* Every transport request issued by a run is recorded in a trace of events
  (`TEv`), together with every assignment the code makes to the token pair
  (`this._token`/`this._oldtoken`) and to `this.login_response`.
* Promise resolution/rejection is modelled by `Outcome`; a promise that is
  never settled (a source stream that never ends) is `Outcome.pending`.
  Recursion between `_request` and `login` is bounded by explicit fuel; a
  `none` result means the fuel was exhausted.
-/

namespace scjs

/-- JavaScript/JSON values (numbers restricted to integers, see header). -/
inductive JVal : Type where
  | null : JVal
  | bool : Bool → JVal
  | num : Int → JVal
  | str : String → JVal
  | arr : List JVal → JVal
  | obj : List (String × JVal) → JVal
  deriving Inhabited

/-- JS truthiness of a value (`if (x)`).  `null`/`undefined`, `false`, `0`
and the empty string are falsy; objects and arrays are always truthy. -/
def jsTruthy : JVal → Bool
  | .null => false
  | .bool b => b
  | .num n => n ≠ 0
  | .str s => s ≠ ""
  | .arr _ => true
  | .obj _ => true

/-- Field lookup in an object literal (parsed JSON objects have no duplicate
keys, so first-match lookup is adequate). -/
def lookupField (fs : List (String × JVal)) (name : String) : Option JVal :=
  match fs with
  | [] => none
  | (k, v) :: rest => if k = name then some v else lookupField rest name

/-- JS loose equality `==` restricted to the primitive cases the code
exercises (number/number, string/string, number/string numeric coercion,
boolean/number coercion, null/null). -/
def jsEq : JVal → JVal → Bool
  | .num a, .num b => a = b
  | .str a, .str b => a = b
  | .num a, .str b => b.toInt? = some a
  | .str a, .num b => a.toInt? = some b
  | .bool a, .num b => (if a then (1 : Int) else 0) = b
  | .num a, .bool b => a = (if b then (1 : Int) else 0)
  | .bool a, .bool b => a = b
  | .null, .null => true
  | _, _ => false

/-- The expiry signature test of `_request` (src/index.js:131):
`resp && typeof resp === 'object' && 'httpErrorCode' in resp &&
resp.httpErrorCode == 401 && resp.code == 'NoUserLogon'`.
Primitives fail the `typeof` test; arrays pass it but have neither field. -/
def isExpiryVal : JVal → Bool
  | .obj fs =>
    match lookupField fs "httpErrorCode" with
    | some hv =>
      jsEq hv (.num 401) &&
        (match lookupField fs "code" with
         | some cv => jsEq cv (.str "NoUserLogon")
         | none => false)
    | none => false
  | _ => false

/-- The JS `in` operator `name in v`: `none` models the `TypeError` thrown
when `v` is a primitive or `null`; arrays have no string-named fields. -/
def jsInOp (name : String) : JVal → Option Bool
  | .obj fs => some (lookupField fs name).isSome
  | .arr _ => some false
  | _ => none

/-- Property read `v[name]` (absent property: `undefined`, collapsed to
`JVal.null`, see header). -/
def getProp (v : JVal) (name : String) : JVal :=
  match v with
  | .obj fs => (lookupField fs name).getD .null
  | _ => .null

/-- JS string coercion as used in template literals (`${x}`); absent values
render as their `null` collapse. -/
def jsToStr : JVal → String
  | .str s => s
  | .num n => toString n
  | .bool b => if b then "true" else "false"
  | .null => "null"
  | .arr _ => ""
  | .obj _ => "[object Object]"

mutual
/-- Models `JSON.stringify` (external collaborator); string escaping is
elided — no claim feeds strings needing escapes through it. -/
def jsonEncode : JVal → String
  | .null => "null"
  | .bool b => if b then "true" else "false"
  | .num n => toString n
  | .str s => "\x22" ++ s ++ "\x22"
  | .arr xs => "[" ++ String.intercalate "," (jsonEncodeList xs) ++ "]"
  | .obj fs => "\x7b" ++ String.intercalate "," (jsonEncodeFields fs) ++ "\x7d"

def jsonEncodeList : List JVal → List String
  | [] => []
  | x :: xs => jsonEncode x :: jsonEncodeList xs

def jsonEncodeFields : List (String × JVal) → List String
  | [] => []
  | (k, v) :: fs => ("\x22" ++ k ++ "\x22:" ++ jsonEncode v) :: jsonEncodeFields fs
end

/-- Coercion of a primitive to its query-string form, as
`querystring.stringify` does (objects/arrays and null-ish values coerce to
the empty string). -/
def qsVal : JVal → String
  | .str s => s
  | .num n => toString n
  | .bool b => if b then "true" else "false"
  | _ => ""

/-- Models `querystring.stringify` (external collaborator); percent-escaping
is elided — no claim depends on it. -/
def qstringify : JVal → String
  | .obj fs => String.intercalate "&" (fs.map (fun kv => kv.1 ++ "=" ++ qsVal kv.2))
  | _ => ""

/-- Models `url.resolve base endpoint` for a base path ending in `/` and a
relative endpoint, the only shape the client produces (external
collaborator). -/
def urlResolve (base endpoint : String) : String := base ++ endpoint

/-! ## Transport model -/

/-- The outcome of `JSON.parse` on the accumulated body text of a transport
response: empty body (`resp` stays `''` and is never parsed), a body that
parses to a JSON value, or a non-empty body raising `SyntaxError`. -/
inductive BodyKind : Type where
  | empty : BodyKind
  | json : JVal → BodyKind
  | raw : String → BodyKind
  deriving Inhabited

/-- One transport response: status code, status message and body. -/
structure HttpResp : Type where
  statusCode : Int
  statusMessage : String
  body : BodyKind
  deriving Inhabited

/-- Transport-level result of one request: a response, or a connection-level
error delivered on the request's `error` event. -/
inductive TransportResult : Type where
  | ok : HttpResp → TransportResult
  | err : String → TransportResult
  deriving Inhabited

/-- The transport: result of the i-th transport request issued in a run. -/
def Transport : Type := Nat → TransportResult

/-! ## Run results and trace -/

/-- The value a `_request` promise settles with on the resolve side:
the untouched empty string `''`, or a parsed/synthesized JSON value. -/
inductive RespPayload : Type where
  | emptyStr : RespPayload
  | val : JVal → RespPayload
  deriving Inhabited

/-- Rejection payloads: a parsed/synthesized response body, a transport
error, a thrown JS `Error(msg)`, an `Error(statusMessage)` carrying a
`code` field (upload/download failure objects), or a source-stream error. -/
inductive RejPayload : Type where
  | resp : RespPayload → RejPayload
  | transport : String → RejPayload
  | jsError : String → RejPayload
  | httpError : (msg : String) → (code : Int) → RejPayload
  | streamErr : String → RejPayload
  deriving Inhabited

/-- Settlement of a modelled promise. `pending` occurs only for
`uploadStream` whose source stream never signals end-of-data. -/
inductive Outcome : Type where
  | resolved : RespPayload → Outcome
  | rejected : RejPayload → Outcome
  | pending : Outcome
  deriving Inhabited

/-- The body written on a transport request: nothing, a JSON text, one
binary chunk (unknown-length upload), or the whole source stream piped in
(known-length upload). -/
inductive RBody : Type where
  | empty : RBody
  | str : String → RBody
  | chunk : List Nat → RBody
  | piped : RBody
  deriving Inhabited

/-- Everything observable about one issued transport request. -/
structure ReqRecord : Type where
  method : String
  path : String
  contentType : Option String
  tokenHeader : Option (String × JVal)
  contentLength : Option Nat
  body : RBody
  deriving Inhabited

/-- Trace events of a run: a transport request was issued, the token pair
`(_token, _oldtoken)` was assigned, or `login_response` was assigned. -/
inductive TEv : Type where
  | req : ReqRecord → TEv
  | tokSet : JVal → JVal → TEv
  | lrSet : RespPayload → TEv
  deriving Inhabited

/-- The transport requests recorded in a trace, in order. -/
def reqsOf : List TEv → List ReqRecord
  | [] => []
  | .req r :: rest => r :: reqsOf rest
  | _ :: rest => reqsOf rest

/-- The `login_response` assignments recorded in a trace, in order. -/
def lrSetsOf : List TEv → List RespPayload
  | [] => []
  | .lrSet v :: rest => v :: lrSetsOf rest
  | _ :: rest => lrSetsOf rest

/-! ## Session state (spec §3 Session State, src/index.js:510-520) -/

/-- The mutable state of one `ConManager` instance.  `rootPath` models
`this._rooturl` and `basePath` the path part of `this._baseurl` (scheme,
host and port are carried by the transport collaborator). -/
structure CMState : Type where
  rootPath : String
  basePath : String
  token_name : String
  token : JVal
  oldtoken : JVal
  username : JVal
  password : JVal
  login_response : RespPayload
  deriving Inhabited

/-- A fresh instance (src/index.js:510-520): both tokens `null`, no stored
credentials, `login_response` an empty object. -/
def initState (rootPath basePath token_name : String) : CMState :=
  { rootPath, basePath, token_name,
    token := .null, oldtoken := .null,
    username := .null, password := .null,
    login_response := .val (.obj []) }

/-! ## The generic request executor (src/index.js:72-199) -/

/-- `['GET', 'HEAD', 'DELETE'].indexOf(method) >= 0` (src/index.js:79). -/
def isReadMethod (m : String) : Bool :=
  m = "GET" || m = "HEAD" || m = "DELETE"

/-- Truthiness of the optional `data` argument (`if (data)`). -/
def dataTruthy : Option JVal → Bool
  | some d => jsTruthy d
  | none => false

/-- The token header attached when `this._token` is truthy
(src/index.js:75-77). -/
def tokenHdr (st : CMState) : Option (String × JVal) :=
  if jsTruthy st.token then some (st.token_name, st.token) else none

/-- The endpoint after query-encoding `data` for read methods
(src/index.js:79-82). -/
def reqEndpoint (m e : String) (d : Option JVal) : String :=
  if isReadMethod m && dataTruthy d then e ++ "?" ++ qstringify (d.getD .null) else e

/-- The stringified body for write methods with truthy `data`
(src/index.js:84-86); `none` when nothing is written. -/
def reqBodyStr (m : String) (d : Option JVal) : Option String :=
  if !isReadMethod m && dataTruthy d then some (jsonEncode (d.getD .null)) else none

/-- The `Content-Length` header: absent for read methods, byte length of the
JSON body (or 0) for write methods (src/index.js:84-89). -/
def reqCL (m : String) (d : Option JVal) : Option Nat :=
  if isReadMethod m then none
  else some ((reqBodyStr m d).elim 0 String.utf8ByteSize)

/-- The transport request `_request` issues for `(method, endpoint, data)`
from state `st` (src/index.js:72-98, 194-197). -/
def mkRecord (st : CMState) (m e : String) (d : Option JVal) : ReqRecord :=
  { method := m,
    path := urlResolve st.basePath (reqEndpoint m e d),
    contentType := some "application/json",
    tokenHeader := tokenHdr st,
    contentLength := reqCL m d,
    body := match reqBodyStr m d with | some s => .str s | none => .empty }

/-- Parsing of the response body (src/index.js:114-126): the value
`resp` holds after the `end` handler's try/catch. -/
def parsePayload (r : HttpResp) : RespPayload :=
  match r.body with
  | .empty => .emptyStr
  | .json v => .val v
  | .raw s => .val (.obj [("httpErrorCode", .num r.statusCode),
                          ("code", .str r.statusMessage),
                          ("description", .str s)])

/-- The status code after the parse step: the mutation
`res.statusCode = 500` on a `SyntaxError` (src/index.js:121) makes the later
`res.statusCode >= 400` test (src/index.js:183) read 500, not the original
transport status. -/
def parseStatus (r : HttpResp) : Int :=
  match r.body with
  | .raw _ => 500
  | _ => r.statusCode

/-- The expiry test applied to the parsed payload (src/index.js:131); the
empty string is falsy and never matches. -/
def isExpiryPayload : RespPayload → Bool
  | .emptyStr => false
  | .val v => isExpiryVal v

/-- The `in` test `this._token_name in resp` (src/index.js:456); `none`
models the `TypeError` thrown when `resp` is not an object. -/
def respInOp (name : String) : RespPayload → Option Bool
  | .emptyStr => none
  | .val v => jsInOp name v

/-- Property read on a settled payload. -/
def respProp (p : RespPayload) (name : String) : JVal :=
  match p with
  | .emptyStr => .null
  | .val v => getProp v name

/-- The nested retry of the original request after a successful re-login
(src/index.js:139-179): same options object, token header refreshed, same
body; the retried response is subject only to the plain `>= 400` test
(src/index.js:165-169) — no second expiry detection. -/
def retryCall (tr : Transport) (k : Nat) (rec1 : ReqRecord) :
    Nat × List TEv × Outcome :=
  match tr k with
  | .err e => (k + 1, [.req rec1], .rejected (.transport e))
  | .ok r =>
    (k + 1, [.req rec1],
      if parseStatus r ≥ 400 then .rejected (.resp (parsePayload r))
      else .resolved (parsePayload r))

mutual

/-- `this._request(method, endpoint, data)` (src/index.js:72-199).
Returns the final state, the next transport index, the trace and the
settlement; `none` when the fuel bounding the `_request`/`login` recursion
runs out. -/
def request (fuel : Nat) (st : CMState) (tr : Transport) (k : Nat)
    (m e : String) (d : Option JVal) :
    Option (CMState × Nat × List TEv × Outcome) :=
  match fuel with
  | 0 => none
  | fuel + 1 =>
    let rec0 := mkRecord st m e d
    match tr k with
    | .err er => some (st, k + 1, [.req rec0], .rejected (.transport er))
    | .ok r =>
      if isExpiryPayload (parsePayload r) then
        -- src/index.js:131-135: clear both tokens, re-login, retry once
        let st1 := { st with token := .null, oldtoken := .null }
        match login fuel st1 tr (k + 1) st1.username st1.password with
        | none => none
        | some (st2, k2, tl, .rejected er) =>
          some (st2, k2, .req rec0 :: .tokSet .null .null :: tl, .rejected er)
        | some (st2, k2, tl, .pending) =>
          some (st2, k2, .req rec0 :: .tokSet .null .null :: tl, .pending)
        | some (st2, k2, tl, .resolved _) =>
          let rec1 := { rec0 with tokenHeader := some (st2.token_name, st2.token) }
          let r3 := retryCall tr k2 rec1
          some (st2, r3.1, .req rec0 :: .tokSet .null .null :: (tl ++ r3.2.1), r3.2.2)
      else if parseStatus r ≥ 400 then
        some (st, k + 1, [.req rec0], .rejected (.resp (parsePayload r)))
      else
        some (st, k + 1, [.req rec0], .resolved (parsePayload r))

/-- The `auth/login` phase of `login` (src/index.js:453-466): POST the
credentials, cache the response, extract the tokens or fail. -/
def loginPost (fuel : Nat) (st : CMState) (tr : Transport) (k : Nat) :
    Option (CMState × Nat × List TEv × Outcome) :=
  match request fuel st tr k "POST" "auth/login"
      (some (.obj [("username", st.username), ("password", st.password)])) with
  | none => none
  | some (s2, k2, t2, .rejected er) => some (s2, k2, t2, .rejected er)
  | some (s2, k2, t2, .pending) => some (s2, k2, t2, .pending)
  | some (s2, k2, t2, .resolved resp) =>
    let s3 := { s2 with login_response := resp }
    match respInOp s3.token_name resp with
    | none =>
      some (s3, k2, t2 ++ [.lrSet resp], .rejected (.jsError "TypeError"))
    | some false =>
      -- src/index.js:462: throw new Error("No token received!")
      some (s3, k2, t2 ++ [.lrSet resp], .rejected (.jsError "No token received!"))
    | some true =>
      let tok := respProp resp s3.token_name
      let old := respProp resp "token"
      some ({ s3 with token := tok, oldtoken := old }, k2,
        t2 ++ [.lrSet resp, .tokSet tok old], .resolved resp)

/-- `this.login(username, password)` (src/index.js:420-468): store the
credentials, log out first when a token is present (clearing the token pair
whether the logout resolves or rejects — "failure is always an option"),
then run the `auth/login` phase. -/
def login (fuel : Nat) (st : CMState) (tr : Transport) (k : Nat)
    (u p : JVal) : Option (CMState × Nat × List TEv × Outcome) :=
  match fuel with
  | 0 => none
  | fuel + 1 =>
    let st0 := { st with username := u, password := p }
    if jsTruthy st0.token then
      let stA := { st0 with login_response := .val (.obj []) }
      match request fuel stA tr k "GET" "auth/logout"
          (some (.obj [("token", stA.oldtoken)])) with
      | none => none
      | some (sB, kB, tB, _) =>
        match loginPost fuel { sB with token := .null, oldtoken := .null } tr kB with
        | none => none
        | some (sC, kC, tC, out) =>
          some (sC, kC,
            .lrSet (.val (.obj [])) :: tB ++ .tokSet .null .null :: tC, out)
    else
      loginPost fuel st0 tr k

end

/-! ## Chunked upload orchestrator (src/index.js:210-324) -/

/-- Events emitted by the source readable stream, in emission order. -/
inductive SEv : Type where
  | data : List Nat → SEv
  | ended : SEv
  | errorEv : String → SEv
  deriving Inhabited

/-- The source stream handed to `uploadStream`: the file-descriptor /
http-response shape probes used for upfront length detection
(src/index.js:232-236) and the event sequence it emits. -/
structure RStream : Type where
  hasFd : Bool
  fdSize : Nat
  hasHttp : Bool
  contentLength : Option String
  events : List SEv
  deriving Inhabited

/-- Models `parseInt` on a content-length header (external collaborator);
a non-numeric string (`NaN`) never passes the `size > 0` test, like 0. -/
def jsParseInt (s : String) : Nat := (s.toNat?).getD 0

/-- Upfront stream length detection (src/index.js:230-236): file streams
use `fs.statSync().size`, http response streams a truthy `content-length`
header; anything else leaves `size = 0` (unknown). -/
def streamSize (rs : RStream) : Nat :=
  if rs.hasFd then rs.fdSize
  else if rs.hasHttp && (match rs.contentLength with
                         | some s => s ≠ ""
                         | none => false) then
    jsParseInt (rs.contentLength.getD "")
  else 0

/-- Splitting a character list on a separator character (structural, so
concrete path computations reduce inside proofs); never returns `[]`. -/
def splitChar (c : Char) : List Char → List (List Char)
  | [] => [[]]
  | x :: xs =>
    let r := splitChar c xs
    if x = c then [] :: r else (x :: r.headD []) :: r.tail

/-- Joining character lists with a separator character. -/
def joinChar (c : Char) : List (List Char) → List Char
  | [] => []
  | [x] => x
  | x :: y :: xs => x ++ c :: joinChar c (y :: xs)

/-- Models node `path.basename` (external collaborator) for the
slash-separated paths the claims use. -/
def pathBasename (p : String) : String :=
  .mk (((splitChar '/' p.data).getLast?).getD p.data)

/-- Models node `path.dirname` (external collaborator) for paths without a
trailing slash. -/
def pathDirname (p : String) : String :=
  let parts := splitChar '/' p.data
  if parts.length ≤ 1 then "." else .mk (joinChar '/' parts.dropLast)

/-- Models node `path.extname` (external collaborator) for ordinary
file names. -/
def pathExtname (f : String) : String :=
  let parts := splitChar '.' f.data
  if parts.length ≤ 1 then "" else .mk ('.' :: (parts.getLast?).getD [])

/-- `subfolder` derivation (src/index.js:212-216). -/
def uploadSubfolder (cmpath : String) : String :=
  let s := pathDirname cmpath
  if s = "." then "" else s

/-- `upload_type` resolution (src/index.js:218-228): default/`auto`
classifies by a fixed extension denylist; explicit values are lowercased. -/
def resolveUploadType (upload_type : Option String) (filename : String) : String :=
  let ut := match upload_type with
            | none => "auto"
            | some t => t.toLower
  if ut = "auto" then
    if [".bat", ".cmd", ".py", ".vbs", ".exe", ".zip"].contains (pathExtname filename)
    then "maint_item" else "media_item"
  else ut

/-- The raw part-upload PUT issued by `upload_chunk` (src/index.js:245-258):
`PUT fileupload/part/{uuid}/{off}` with `Content-Type:
application/octet-stream`, an explicit `Content-Length` and the token header
when a token is present. -/
def uploadChunkRecord (st : CMState) (uuid : JVal) (off siz : Nat)
    (body : RBody) : ReqRecord :=
  { method := "PUT",
    path := urlResolve st.basePath
      ("fileupload/part/" ++ jsToStr uuid ++ "/" ++ toString off),
    contentType := some "application/octet-stream",
    tokenHeader := tokenHdr st,
    contentLength := some siz,
    body := body }

/-- The compensating `DELETE media/{mediaId}` after a failed part upload
(src/index.js:287-289, 304-306, 317-319): on a resolving delete the original
error is rejected; a rejecting delete's payload propagates instead. -/
def uploadDelete (fuel : Nat) (st : CMState) (tr : Transport) (k : Nat)
    (trace : List TEv) (mediaId : JVal) (origErr : RejPayload) :
    Option (CMState × Nat × List TEv × Outcome) :=
  match request fuel st tr k "DELETE" ("media/" ++ jsToStr mediaId) none with
  | none => none
  | some (s2, k2, t2, .resolved _) => some (s2, k2, trace ++ t2, .rejected origErr)
  | some (s2, k2, t2, .rejected e) => some (s2, k2, trace ++ t2, .rejected e)
  | some (s2, k2, t2, .pending) => some (s2, k2, trace ++ t2, .pending)

/-- `POST fileupload/complete/{uuid}` then resolve with the init result
(src/index.js:280-282, 313-315); a rejecting complete call propagates. -/
def uploadComplete (fuel : Nat) (st : CMState) (tr : Transport) (k : Nat)
    (trace : List TEv) (uuid : JVal) (respInit : RespPayload) :
    Option (CMState × Nat × List TEv × Outcome) :=
  match request fuel st tr k "POST" ("fileupload/complete/" ++ jsToStr uuid) none with
  | none => none
  | some (s2, k2, t2, .resolved _) => some (s2, k2, trace ++ t2, .resolved respInit)
  | some (s2, k2, t2, .rejected e) => some (s2, k2, trace ++ t2, .rejected e)
  | some (s2, k2, t2, .pending) => some (s2, k2, trace ++ t2, .pending)

/-- The unknown-length upload loop (src/index.js:293-321): one PUT per data
chunk at the running offset, advancing the offset by the chunk's byte
length; `end` posts the completion; a stream error or a PUT response with
status ≥ 300 triggers the compensating delete; a transport-level PUT
failure rejects directly (`.on('error', reject)`, src/index.js:274).
A run whose events end without `ended` never settles (`pending`). -/
def uploadLoop (fuel : Nat) (st : CMState) (tr : Transport)
    (uuid mediaId : JVal) (respInit : RespPayload) :
    Nat → Nat → List SEv → List TEv →
    Option (CMState × Nat × List TEv × Outcome)
  | k, _, [], trace => some (st, k, trace, .pending)
  | k, offset, .data c :: rest, trace =>
    let rcd := uploadChunkRecord st uuid offset c.length (.chunk c)
    (match tr k with
     | .err e => some (st, k + 1, trace ++ [.req rcd], .rejected (.transport e))
     | .ok r =>
       if r.statusCode ≥ 300 then
         uploadDelete fuel st tr (k + 1) (trace ++ [.req rcd]) mediaId
           (.httpError r.statusMessage r.statusCode)
       else
         uploadLoop fuel st tr uuid mediaId respInit (k + 1)
           (offset + c.length) rest (trace ++ [.req rcd]))
  | k, _, .ended :: _, trace => uploadComplete fuel st tr k trace uuid respInit
  | k, _, .errorEv e :: _, trace =>
    uploadDelete fuel st tr k trace mediaId (.streamErr e)

/-- `this.uploadStream(rstream, cmpath, upload_type)` (src/index.js:210-324).
After a resolving init call: known length issues a single piped PUT at
offset 0 (success → complete → resolve; status ≥ 300 → delete → reject;
transport error → direct reject); unknown length runs the chunk loop. -/
def uploadStream (fuel : Nat) (st : CMState) (tr : Transport) (k : Nat)
    (rs : RStream) (cmpath : String) (upload_type : Option String) :
    Option (CMState × Nat × List TEv × Outcome) :=
  let filename := pathBasename cmpath
  let subfolder := uploadSubfolder cmpath
  let ut := resolveUploadType upload_type filename
  let size := streamSize rs
  match request fuel st tr k "POST" "fileupload/init"
      (some (.obj [("filename", .str filename), ("filepath", .str subfolder),
                   ("uploadType", .str ut)])) with
  | none => none
  | some (s1, k1, t1, .rejected e) => some (s1, k1, t1, .rejected e)
  | some (s1, k1, t1, .pending) => some (s1, k1, t1, .pending)
  | some (s1, k1, t1, .resolved respInit) =>
    let uuid := respProp respInit "uuid"
    let mediaId := respProp respInit "mediaId"
    if size > 0 then
      let rcd := uploadChunkRecord s1 uuid 0 size .piped
      match tr k1 with
      | .err e => some (s1, k1 + 1, t1 ++ [.req rcd], .rejected (.transport e))
      | .ok r =>
        if r.statusCode ≥ 300 then
          uploadDelete fuel s1 tr (k1 + 1) (t1 ++ [.req rcd]) mediaId
            (.httpError r.statusMessage r.statusCode)
        else
          uploadComplete fuel s1 tr (k1 + 1) (t1 ++ [.req rcd]) uuid respInit
    else
      uploadLoop fuel s1 tr uuid mediaId respInit k1 0 rs.events t1

/-! ## Download relay (src/index.js:351-388) -/

/-- A raw (unparsed) transport result for the download GET: the relay never
parses the body, it pipes the bytes. -/
inductive RawResult : Type where
  | ok : (status : Int) → (msg : String) → (bytes : List Nat) → RawResult
  | err : String → RawResult
  deriving Inhabited

/-- Events delivered on the pass-through stream `downloadStream` returns. -/
inductive DEv : Type where
  | data : List Nat → DEv
  | errorEv : (msg : String) → (code : Option Int) → DEv
  deriving Inhabited

/-- The GET request `downloadStream` issues (src/index.js:351-370): the
path is resolved against the root URL (not the API base) with a leading
slash stripped, no content type, token header when present. -/
def downloadRecord (st : CMState) (cmpath : String) : ReqRecord :=
  let p := if cmpath.startsWith "/" then cmpath.drop 1 else cmpath
  { method := "GET",
    path := urlResolve st.rootPath p,
    contentType := none,
    tokenHeader := tokenHdr st,
    contentLength := none,
    body := .empty }

/-- `this.downloadStream(cmpath)` (src/index.js:351-388): status ≠ 200
emits one error carrying the status code and message (src/index.js:375-379);
status 200 pipes the body verbatim (src/index.js:381); a transport error is
emitted on the stream's error channel (src/index.js:383-385). -/
def downloadStream (st : CMState) (res : RawResult) (cmpath : String) :
    ReqRecord × List DEv :=
  (downloadRecord st cmpath,
   match res with
   | .err e => [.errorEv e none]
   | .ok status msg bytes =>
     if status ≠ 200 then [.errorEv msg (some status)] else [.data bytes])

/-- The part-upload PUT records of a trace, in order. -/
def putsOf (T : List TEv) : List ReqRecord :=
  (reqsOf T).filter (fun r => r.method = "PUT")

/-- The DELETE records of a trace, in order (the compensating deletes). -/
def deletesOf (T : List TEv) : List ReqRecord :=
  (reqsOf T).filter (fun r => r.method = "DELETE")

/-- The PUT-record sequence the unknown-length upload loop issues for a
run of data chunks starting at a given offset: one record per chunk, each
at the running offset, advancing by the chunk's byte length. -/
def chunkTrace (st : CMState) (uuid : JVal) : Nat → List (List Nat) → List TEv
  | _, [] => []
  | off, c :: cs =>
    .req (uploadChunkRecord st uuid off c.length (.chunk c)) ::
      chunkTrace st uuid (off + c.length) cs

/-! ## Concrete fixtures used by witnesses and counterexamples -/

/-- A freshly constructed client (no token, no credentials). -/
def wFresh : CMState := initState "http://cm/" "http://cm/api/rest/" "apiToken"

/-- A client holding a live token pair, as after a successful login. -/
def wLoggedIn : CMState :=
  { wFresh with token := .str "TOK", oldtoken := .str "OLD",
                username := .str "user", password := .str "pass" }

/-- A login response carrying both token fields. -/
def wLoginResp : JVal := .obj [("apiToken", .str "NEWTOK"), ("token", .str "NEWOLD")]

/-- The expiry-shaped error body `{httpErrorCode: 401, code: "NoUserLogon"}`. -/
def wExpiryBody : JVal := .obj [("httpErrorCode", .num 401), ("code", .str "NoUserLogon")]

/-- Script for the C1 witness: expiry-shaped 401, then a resolving login,
then a 404 on the retried call. -/
def trC1 : Transport := fun i =>
  match i with
  | 0 => .ok { statusCode := 401, statusMessage := "Unauthorized", body := .json wExpiryBody }
  | 1 => .ok { statusCode := 200, statusMessage := "OK", body := .json wLoginResp }
  | _ => .ok { statusCode := 404, statusMessage := "Not Found",
               body := .json (.obj [("oops", .num 1)]) }

/-- Script for the C10 witness: expiry-shaped body carried by a **200**
response, then a resolving login, then a 200 list response on the retry. -/
def trC10 : Transport := fun i =>
  match i with
  | 0 => .ok { statusCode := 200, statusMessage := "OK", body := .json wExpiryBody }
  | 1 => .ok { statusCode := 200, statusMessage := "OK", body := .json wLoginResp }
  | _ => .ok { statusCode := 200, statusMessage := "OK",
               body := .json (.obj [("list", .arr [])]) }

/-- Script for the C6 witness, missing-token side: a successful HTTP login
response that lacks the configured `apiToken` field. -/
def trC6miss : Transport := fun _ =>
  .ok { statusCode := 200, statusMessage := "OK",
        body := .json (.obj [("token", .str "ONLYOLD")]) }

/-- Script for the C6 witness, token-present side. -/
def trC6hit : Transport := fun _ =>
  .ok { statusCode := 200, statusMessage := "OK", body := .json wLoginResp }

/-- Script for the C5 counterexample: a resolving login whose configured
token field is present but `null`. -/
def trC5null : Transport := fun _ =>
  .ok { statusCode := 200, statusMessage := "OK",
        body := .json (.obj [("apiToken", .null), ("token", .str "T")]) }

/-- Script for the C5 witness: the logout fails at transport level, every
later call resolves with a tokened login response. -/
def trC5w : Transport := fun i =>
  match i with
  | 0 => .err "ECONNRESET"
  | _ => .ok { statusCode := 200, statusMessage := "OK", body := .json wLoginResp }

/-- Script for the C5 witness's rejected-login run: the `auth/login` POST
answers 500. -/
def trC5rej : Transport := fun _ =>
  .ok { statusCode := 500, statusMessage := "Internal Server Error",
        body := .json (.obj [("err", .num 1)]) }

/-- Script for the C5 witness's expiry run: an expiry-shaped 401, then a
transport failure of the re-login POST. -/
def trC5d : Transport := fun i =>
  match i with
  | 0 => .ok { statusCode := 401, statusMessage := "Unauthorized",
               body := .json wExpiryBody }
  | _ => .err "EC2"

/-- Script for the C9 runs: the logout call is answered 400 with a
distinctive body, then the login resolves. -/
def trC9 : Transport := fun i =>
  match i with
  | 0 => .ok { statusCode := 400, statusMessage := "Bad Request",
               body := .json (.obj [("oops", .num 1)]) }
  | _ => .ok { statusCode := 200, statusMessage := "OK", body := .json wLoginResp }

/-- The `auth/login` POST request issued from state `st`
(src/index.js:453). -/
def loginRecord (st : CMState) : ReqRecord :=
  mkRecord st "POST" "auth/login"
    (some (.obj [("username", st.username), ("password", st.password)]))

/-- A transport none of whose responses is expiry-shaped (no
`{httpErrorCode: 401, code: "NoUserLogon"}` bodies anywhere in the run). -/
def NonExpiry (tr : Transport) : Prop :=
  ∀ i r, tr i = .ok r → isExpiryPayload (parsePayload r) = false

/-- A typical `fileupload/init` response. -/
def wInitResp : JVal :=
  .obj [("uuid", .str "U1"), ("filename", .str "a.jpg"), ("mediaId", .num 42)]

/-- A file-backed source stream of known size 5. -/
def wStreamKnown : RStream :=
  { hasFd := true, fdSize := 5, hasHttp := false, contentLength := none, events := [] }

/-- An unknown-length source emitting chunks `[1,2]` and `[3]` then ending. -/
def wStreamChunks : RStream :=
  { hasFd := false, fdSize := 0, hasHttp := false, contentLength := none,
    events := [.data [1, 2], .data [3], .ended] }

/-- An unknown-length source emitting `[1,2]`, `[3]`, `[4]` then ending. -/
def wStreamChunksBad : RStream :=
  { hasFd := false, fdSize := 0, hasHttp := false, contentLength := none,
    events := [.data [1, 2], .data [3], .data [4], .ended] }

/-- A 200 response with an empty-object JSON body. -/
def wOk200 : HttpResp :=
  { statusCode := 200, statusMessage := "OK", body := .json (.obj []) }

/-- Script for the C3 counterexample: the init resolves, then the part PUT
dies at transport level. -/
def trC3t : Transport := fun i =>
  match i with
  | 0 => .ok { statusCode := 200, statusMessage := "OK", body := .json wInitResp }
  | _ => .err "EPIPE"

/-- Script for the C3 witness, known-length side: init ok, PUT answered
500, delete answered 200. -/
def trC3s : Transport := fun i =>
  match i with
  | 0 => .ok { statusCode := 200, statusMessage := "OK", body := .json wInitResp }
  | 1 => .ok { statusCode := 500, statusMessage := "Internal Server Error",
               body := .json (.obj []) }
  | _ => .ok wOk200

/-- Script for the C3 witness, unknown-length side: init ok, two chunk PUTs
ok, third chunk PUT answered 500, delete ok. -/
def trC3u : Transport := fun i =>
  match i with
  | 0 => .ok { statusCode := 200, statusMessage := "OK", body := .json wInitResp }
  | 3 => .ok { statusCode := 500, statusMessage := "Internal Server Error",
               body := .json (.obj []) }
  | _ => .ok wOk200

/-- Script for the C4 witness, unknown-length side: init ok, every later
call (chunk PUTs and the completion POST) answered 200. -/
def trC4u : Transport := fun i =>
  match i with
  | 0 => .ok { statusCode := 200, statusMessage := "OK", body := .json wInitResp }
  | _ => .ok wOk200

/-! # Theorems -/

/-! ## General lemmas about `request` -/

/-- A transport-level failure of the issued request rejects with the raw
transport error (src/index.js:190-192). -/
theorem request_err (fuel : Nat) (st : CMState) (tr : Transport) (k : Nat)
    (m e : String) (d : Option JVal) (er : String) (htr : tr k = .err er) :
    request (fuel + 1) st tr k m e d =
      some (st, k + 1, [.req (mkRecord st m e d)], .rejected (.transport er)) := by
  unfold request
  rw [htr]

/-- A response that is not expiry-shaped settles the call directly by the
`>= 400` test, without touching the state (src/index.js:183-187). -/
theorem request_ok_nonexpiry (fuel : Nat) (st : CMState) (tr : Transport)
    (k : Nat) (m e : String) (d : Option JVal) (r : HttpResp)
    (htr : tr k = .ok r) (hne : isExpiryPayload (parsePayload r) = false) :
    request (fuel + 1) st tr k m e d =
      some (st, k + 1, [.req (mkRecord st m e d)],
        if parseStatus r ≥ 400 then .rejected (.resp (parsePayload r))
        else .resolved (parsePayload r)) := by
  unfold request
  rw [htr]
  simp only [hne, Bool.false_eq_true, if_false]
  split <;> rfl

/-- Whatever the transport does, the first trace event of a `request` run is
the issued request built by `mkRecord` from the entry state. -/
theorem request_head (fuel : Nat) (st : CMState) (tr : Transport) (k : Nat)
    (m e : String) (d : Option JVal) (res : CMState × Nat × List TEv × Outcome)
    (h : request fuel st tr k m e d = some res) :
    res.2.2.1.head? = some (.req (mkRecord st m e d)) := by
  obtain ⟨st', k', T, out⟩ := res
  cases fuel with
  | zero => simp [request] at h
  | succ f =>
    unfold request at h
    cases htr : tr k with
    | err er =>
      rw [htr] at h; dsimp only [] at h
      obtain ⟨h1, h2, h3, h4⟩ := by
        simpa only [Option.some.injEq, Prod.mk.injEq] using h
      subst h3; rfl
    | ok r =>
      rw [htr] at h; dsimp only [] at h
      by_cases hexp : isExpiryPayload (parsePayload r) = true
      · rw [if_pos hexp] at h
        split at h
        · exact absurd h (by simp)
        all_goals
          obtain ⟨h1, h2, h3, h4⟩ := by
            simpa only [Option.some.injEq, Prod.mk.injEq] using h
          subst h3; rfl
      · rw [if_neg hexp] at h
        split at h
        all_goals
          obtain ⟨h1, h2, h3, h4⟩ := by
            simpa only [Option.some.injEq, Prod.mk.injEq] using h
          subst h3; rfl

/-! ## Lemmas about the login phases -/

/-- `loginPost` when the `auth/login` POST fails at transport level. -/
theorem loginPost_err (fuel k : Nat) (st : CMState) (tr : Transport)
    (er : String) (htr : tr k = .err er) :
    loginPost (fuel + 1) st tr k =
      some (st, k + 1, [.req (loginRecord st)], .rejected (.transport er)) := by
  unfold loginPost
  rw [request_err fuel st tr k _ _ _ er htr]
  rfl

/-- `loginPost` when the `auth/login` POST gets a non-expiry response with
(post-parse) status ≥ 400: the rejection propagates, the state is
untouched. -/
theorem loginPost_reject (fuel k : Nat) (st : CMState) (tr : Transport)
    (rl : HttpResp) (htr : tr k = .ok rl)
    (hne : isExpiryPayload (parsePayload rl) = false)
    (hge : parseStatus rl ≥ 400) :
    loginPost (fuel + 1) st tr k =
      some (st, k + 1, [.req (loginRecord st)],
        .rejected (.resp (parsePayload rl))) := by
  unfold loginPost
  rw [request_ok_nonexpiry fuel st tr k _ _ _ rl htr hne]
  rw [if_pos hge]
  rfl

/-- `loginPost` when the `auth/login` POST resolves (non-expiry response,
post-parse status < 400): the response is cached, then the configured token
field decides between `TypeError` (non-object response), the
"No token received!" error, and extraction of the token pair. -/
theorem loginPost_ok (fuel k : Nat) (st : CMState) (tr : Transport)
    (rl : HttpResp) (htr : tr k = .ok rl)
    (hne : isExpiryPayload (parsePayload rl) = false)
    (hlt : parseStatus rl < 400) :
    loginPost (fuel + 1) st tr k =
      match respInOp st.token_name (parsePayload rl) with
      | none =>
        some ({ st with login_response := parsePayload rl }, k + 1,
          [.req (loginRecord st), .lrSet (parsePayload rl)],
          .rejected (.jsError "TypeError"))
      | some false =>
        some ({ st with login_response := parsePayload rl }, k + 1,
          [.req (loginRecord st), .lrSet (parsePayload rl)],
          .rejected (.jsError "No token received!"))
      | some true =>
        some ({ st with login_response := parsePayload rl,
                        token := respProp (parsePayload rl) st.token_name,
                        oldtoken := respProp (parsePayload rl) "token" }, k + 1,
          [.req (loginRecord st), .lrSet (parsePayload rl),
           .tokSet (respProp (parsePayload rl) st.token_name)
             (respProp (parsePayload rl) "token")],
          .resolved (parsePayload rl)) := by
  unfold loginPost
  rw [request_ok_nonexpiry fuel st tr k _ _ _ rl htr hne]
  rw [if_neg (by omega)]
  dsimp only []
  cases hio : respInOp st.token_name (parsePayload rl) with
  | none => rfl
  | some b => cases b <;> rfl

/-- `login` from a state without a truthy token: no logout, straight to the
`auth/login` phase after storing the credentials (src/index.js:420-424,
442). -/
theorem login_nologout_unfold (fuel k : Nat) (st : CMState) (tr : Transport)
    (u p : JVal) (hnt : jsTruthy st.token = false) :
    login (fuel + 1) st tr k u p =
      loginPost fuel { st with username := u, password := p } tr k := by
  unfold login
  dsimp only []
  rw [show jsTruthy ({ st with username := u, password := p } : CMState).token
        = false from hnt]
  simp

/-- `login` from a state with a truthy token: reset the cached login
response, issue the logout, and — whatever the logout's outcome, including
transport failure — clear both tokens before the `auth/login` phase
(src/index.js:427-440). -/
theorem login_logout_unfold (fuel k : Nat) (st : CMState) (tr : Transport)
    (u p : JVal) (htk : jsTruthy st.token = true) :
    login (fuel + 1) st tr k u p =
      (match request fuel
          { st with username := u, password := p, login_response := .val (.obj []) }
          tr k "GET" "auth/logout" (some (.obj [("token", st.oldtoken)])) with
       | none => none
       | some (sB, kB, tB, _) =>
         match loginPost fuel { sB with token := .null, oldtoken := .null } tr kB with
         | none => none
         | some (sC, kC, tC, out) =>
           some (sC, kC,
             .lrSet (.val (.obj [])) :: tB ++ .tokSet .null .null :: tC, out)) := by
  unfold login
  dsimp only []
  rw [show jsTruthy ({ st with username := u, password := p } : CMState).token
        = true from htk]
  simp

/-- Token/outcome bookkeeping of the `auth/login` phase under a transport
with no expiry-shaped responses: a rejected phase leaves the token pair
untouched; a resolved phase sets the current token to the response's
configured token field and the previous token to its `token` field, and
caches the response. -/
theorem loginPost_cases (fuel k : Nat) (st : CMState) (tr : Transport)
    (hne : NonExpiry tr) (res : CMState × Nat × List TEv × Outcome)
    (h : loginPost (fuel + 1) st tr k = some res) :
    (∀ e, res.2.2.2 = .rejected e →
      res.1.token = st.token ∧ res.1.oldtoken = st.oldtoken) ∧
    (∀ v, res.2.2.2 = .resolved v →
      res.1.token = respProp v st.token_name ∧
      res.1.oldtoken = respProp v "token" ∧
      res.1.login_response = v) := by
  cases htr : tr k with
  | err er =>
    rw [loginPost_err fuel k st tr er htr] at h
    obtain rfl := Option.some.inj h
    exact ⟨fun e he => ⟨rfl, rfl⟩, fun v hv => by simp at hv⟩
  | ok rl =>
    have hner := hne k rl htr
    by_cases hge : parseStatus rl ≥ 400
    · rw [loginPost_reject fuel k st tr rl htr hner hge] at h
      obtain rfl := Option.some.inj h
      exact ⟨fun e he => ⟨rfl, rfl⟩, fun v hv => by simp at hv⟩
    · rw [loginPost_ok fuel k st tr rl htr hner (by omega)] at h
      cases hio : respInOp st.token_name (parsePayload rl) with
      | none =>
        rw [hio] at h
        obtain rfl := Option.some.inj h
        exact ⟨fun e he => ⟨rfl, rfl⟩, fun v hv => by simp at hv⟩
      | some b =>
        cases b with
        | false =>
          rw [hio] at h
          obtain rfl := Option.some.inj h
          exact ⟨fun e he => ⟨rfl, rfl⟩, fun v hv => by simp at hv⟩
        | true =>
          rw [hio] at h
          obtain rfl := Option.some.inj h
          refine ⟨fun e he => by simp at he, fun v hv => ?_⟩
          obtain rfl := Outcome.resolved.inj hv
          exact ⟨rfl, rfl, rfl⟩

/-- Whatever the transport does, the first trace event of a `loginPost`
run is the `auth/login` POST built from its entry state. -/
theorem loginPost_head (fuel k : Nat) (st : CMState) (tr : Transport)
    (res : CMState × Nat × List TEv × Outcome)
    (h : loginPost fuel st tr k = some res) :
    res.2.2.1.head? = some (.req (loginRecord st)) := by
  unfold loginPost at h
  cases hq : request fuel st tr k "POST" "auth/login"
      (some (.obj [("username", st.username), ("password", st.password)])) with
  | none => rw [hq] at h; exact absurd h (by simp)
  | some r2 =>
    obtain ⟨s2, k2, t2, out⟩ := r2
    have hh := request_head fuel st tr k _ _ _ _ hq
    rw [hq] at h
    cases out with
    | rejected e2 =>
      obtain rfl := Option.some.inj h
      exact hh
    | pending =>
      obtain rfl := Option.some.inj h
      exact hh
    | resolved v =>
      dsimp only [] at h
      have happ : ∀ (xs : List TEv), (t2 ++ xs).head? = some (.req (loginRecord st)) := by
        intro xs
        cases t2 with
        | nil => simp at hh
        | cons a t2' => simpa using hh
      cases hio : respInOp s2.token_name v with
      | none =>
        rw [hio] at h
        obtain rfl := Option.some.inj h
        exact happ _
      | some b =>
        cases b with
        | false =>
          rw [hio] at h
          obtain rfl := Option.some.inj h
          exact happ _
        | true =>
          rw [hio] at h
          obtain rfl := Option.some.inj h
          exact happ _

/-- A resolving login from a state without a truthy token (no logout):
the credentials are stored, the `auth/login` POST is issued, the response
is cached, the configured token field becomes the current token and the
response's `token` field the previous token. -/
theorem login_ok_nologout (fuel k : Nat) (st : CMState) (tr : Transport)
    (u p : JVal) (rl : HttpResp) (vl : JVal)
    (hnt : jsTruthy st.token = false)
    (h1 : tr k = .ok rl) (hlb : rl.body = .json vl)
    (hlne : isExpiryVal vl = false)
    (hlst : rl.statusCode < 400)
    (htok : jsInOp st.token_name vl = some true) :
    login (fuel + 2) st tr k u p =
      some ({ st with username := u, password := p,
                      login_response := .val vl,
                      token := getProp vl st.token_name,
                      oldtoken := getProp vl "token" },
        k + 1,
        [.req (mkRecord { st with username := u, password := p }
           "POST" "auth/login" (some (.obj [("username", u), ("password", p)]))),
         .lrSet (.val vl),
         .tokSet (getProp vl st.token_name) (getProp vl "token")],
        .resolved (.val vl)) := by
  have hpp : parsePayload rl = .val vl := by unfold parsePayload; rw [hlb]
  have hps : parseStatus rl = rl.statusCode := by unfold parseStatus; rw [hlb]
  have hne : isExpiryPayload (parsePayload rl) = false := by
    rw [hpp]; exact hlne
  unfold login
  dsimp only []
  rw [show jsTruthy ({ st with username := u, password := p } : CMState).token
        = false from hnt]
  simp only [Bool.false_eq_true, if_false]
  unfold loginPost
  rw [request_ok_nonexpiry fuel _ tr k _ _ _ rl h1 hne]
  rw [hps, if_neg (by omega)]
  dsimp only []
  rw [hpp]
  simp only [respInOp]
  rw [htok]
  simp only [respProp]
  rfl

/-- The full expiry-detect / re-login / retry run of `_request`
(src/index.js:131-182): the original call answered with an expiry-shaped
body, the re-login resolving with a tokened response, the retried call
classified only by the plain `>= 400` test. -/
theorem request_expiry_run (fuel k : Nat) (st : CMState) (tr : Transport)
    (m e : String) (d : Option JVal) (r0 rl r2 : HttpResp) (vl : JVal)
    (h0 : tr k = .ok r0)
    (hexp : isExpiryPayload (parsePayload r0) = true)
    (h1 : tr (k + 1) = .ok rl)
    (hlb : rl.body = .json vl)
    (hlne : isExpiryVal vl = false)
    (hlst : rl.statusCode < 400)
    (htok : jsInOp st.token_name vl = some true)
    (h2 : tr (k + 2) = .ok r2) :
    request (fuel + 3) st tr k m e d =
      some ({ st with token := getProp vl st.token_name,
                      oldtoken := getProp vl "token",
                      login_response := .val vl },
        k + 3,
        [.req (mkRecord st m e d),
         .tokSet .null .null,
         .req (mkRecord { st with token := .null, oldtoken := .null }
           "POST" "auth/login"
           (some (.obj [("username", st.username), ("password", st.password)]))),
         .lrSet (.val vl),
         .tokSet (getProp vl st.token_name) (getProp vl "token"),
         .req { mkRecord st m e d with
                  tokenHeader := some (st.token_name, getProp vl st.token_name) }],
        if parseStatus r2 ≥ 400 then .rejected (.resp (parsePayload r2))
        else .resolved (parsePayload r2)) := by
  unfold request
  rw [h0]
  dsimp only []
  rw [if_pos hexp]
  rw [login_ok_nologout fuel (k + 1)
    { st with token := .null, oldtoken := .null } tr st.username st.password rl vl
    rfl h1 hlb hlne hlst htok]
  dsimp only []
  unfold retryCall
  rw [h2]
  rfl

/-! ## C8: download relay error channel -/

/-- **C8.** For every `downloadStream` call whose GET response has status
≠ 200, the returned stream never emits data and emits exactly one error
carrying the original status code and status message; when the status is
200, the response body bytes are relayed verbatim to the returned stream. -/
theorem c8_downloadStream_error_channel (st : CMState) (cmpath : String)
    (status : Int) (msg : String) (bytes : List Nat) :
    (status ≠ 200 →
      (downloadStream st (.ok status msg bytes) cmpath).2 =
        [.errorEv msg (some status)]) ∧
    (downloadStream st (.ok 200 msg bytes) cmpath).2 = [.data bytes] := by
  constructor
  · intro h
    simp [downloadStream, h]
  · simp [downloadStream]

/-- Witness for C8 at a concrete 404 and a concrete 200 response. -/
theorem c8_witness :
    (downloadStream wFresh (.ok 404 "Not Found" [7, 8]) "media/1.png").2 =
      [.errorEv "Not Found" (some 404)] ∧
    (downloadStream wFresh (.ok 200 "OK" [7, 8]) "media/1.png").2 = [.data [7, 8]] :=
  ⟨(c8_downloadStream_error_channel wFresh "media/1.png" 404 "Not Found" [7, 8]).1
      (by decide),
   (c8_downloadStream_error_channel wFresh "media/1.png" 404 "OK" [7, 8]).2⟩

/-! ## C2: non-JSON bodies -/

/-- A transport always answering status 200 with a non-JSON body. -/
def trRaw200 : Transport :=
  fun _ => .ok { statusCode := 200, statusMessage := "OK", body := .raw "hello" }

/-- **C2 counterexample.**  A response with original transport status 200
(< 400) and a non-empty non-JSON body is REJECTED with the synthesized
mapping: the `>= 400` decision reads the mutated (forced-500) status
(src/index.js:121 mutates `res.statusCode` before src/index.js:183 reads
it), not the original transport status as the claim states — the claim
would require this call to resolve. -/
theorem c2_counterexample :
    request 1 wFresh trRaw200 0 "GET" "players" none =
      some (wFresh, 1, [.req (mkRecord wFresh "GET" "players" none)],
        .rejected (.resp (.val (.obj [("httpErrorCode", .num 200),
          ("code", .str "OK"), ("description", .str "hello")])))) := by
  unfold request
  simp [trRaw200, parsePayload, parseStatus, isExpiryPayload, isExpiryVal,
    lookupField, jsEq]

/-- **C2 (amended).**  A non-empty response body that fails to parse never
raises to the caller; it yields the synthesized mapping
`{httpErrorCode: original status, code: original status message,
description: raw body}`; but the forced 500 is used by the resolve/reject
decision as well, so (outside the expiry-shaped case) the call always
rejects with that mapping, whatever the original transport status was. -/
theorem c2_amended_nonjson_body (fuel : Nat) (st : CMState) (tr : Transport)
    (k : Nat) (m e : String) (d : Option JVal) (r : HttpResp) (s : String)
    (htr : tr k = .ok r) (hb : r.body = .raw s)
    (hne : isExpiryVal (.obj [("httpErrorCode", .num r.statusCode),
      ("code", .str r.statusMessage), ("description", .str s)]) = false) :
    request (fuel + 1) st tr k m e d =
      some (st, k + 1, [.req (mkRecord st m e d)],
        .rejected (.resp (.val (.obj [("httpErrorCode", .num r.statusCode),
          ("code", .str r.statusMessage), ("description", .str s)])))) := by
  have hp : parsePayload r = .val (.obj [("httpErrorCode", .num r.statusCode),
      ("code", .str r.statusMessage), ("description", .str s)]) := by
    unfold parsePayload; rw [hb]
  have hs : parseStatus r = 500 := by
    unfold parseStatus; rw [hb]
  unfold request
  rw [htr]
  dsimp only []
  rw [hp, hs]
  simp [isExpiryPayload, hne]

/-- Witness for C2's amended theorem: a 200 response with body `hello`. -/
theorem c2_witness :
    request 3 wFresh trRaw200 0 "POST" "players" none =
      some (wFresh, 1, [.req (mkRecord wFresh "POST" "players" none)],
        .rejected (.resp (.val (.obj [("httpErrorCode", .num 200),
          ("code", .str "OK"), ("description", .str "hello")])))) :=
  c2_amended_nonjson_body 2 wFresh trRaw200 0 "POST" "players" none
    { statusCode := 200, statusMessage := "OK", body := .raw "hello" } "hello"
    rfl rfl (by decide)

/-! ## C7: request building -/

/-- A transport always answering status 200 with an empty body. -/
def trOK : Transport :=
  fun _ => .ok { statusCode := 200, statusMessage := "OK", body := .empty }

/-- **C7.**  For every request with method GET/HEAD/DELETE and present
(mapping) data, the issued transport request carries the query-encoded data
appended to the endpoint, no `Content-Length` header and no body; for
POST/PUT with data, the body is the JSON encoding of the data and
`Content-Length` is its byte length; for POST/PUT without data, the body is
empty and `Content-Length` is 0. -/
theorem c7_request_encoding (fuel k : Nat) (st : CMState) (tr : Transport)
    (m e : String) :
    ((m = "GET" ∨ m = "HEAD" ∨ m = "DELETE") →
      ∀ (fs : List (String × JVal)) (res : CMState × Nat × List TEv × Outcome),
        request fuel st tr k m e (some (.obj fs)) = some res →
        res.2.2.1.head? = some (.req
          { method := m,
            path := urlResolve st.basePath (e ++ "?" ++ qstringify (.obj fs)),
            contentType := some "application/json",
            tokenHeader := tokenHdr st,
            contentLength := none,
            body := .empty })) ∧
    ((m = "POST" ∨ m = "PUT") →
      ∀ (fs : List (String × JVal)) (res : CMState × Nat × List TEv × Outcome),
        request fuel st tr k m e (some (.obj fs)) = some res →
        res.2.2.1.head? = some (.req
          { method := m,
            path := urlResolve st.basePath e,
            contentType := some "application/json",
            tokenHeader := tokenHdr st,
            contentLength := some ((jsonEncode (.obj fs)).utf8ByteSize),
            body := .str (jsonEncode (.obj fs)) })) ∧
    ((m = "POST" ∨ m = "PUT") →
      ∀ (res : CMState × Nat × List TEv × Outcome),
        request fuel st tr k m e none = some res →
        res.2.2.1.head? = some (.req
          { method := m,
            path := urlResolve st.basePath e,
            contentType := some "application/json",
            tokenHeader := tokenHdr st,
            contentLength := some 0,
            body := .empty })) := by
  refine ⟨?_, ?_, ?_⟩
  · rintro (rfl | rfl | rfl) fs res h <;>
      (rw [request_head _ _ _ _ _ _ _ _ h]
       simp [mkRecord, reqEndpoint, reqCL, reqBodyStr, isReadMethod, dataTruthy, jsTruthy])
  · rintro (rfl | rfl) fs res h <;>
      (rw [request_head _ _ _ _ _ _ _ _ h]
       simp [mkRecord, reqEndpoint, reqCL, reqBodyStr, isReadMethod, dataTruthy, jsTruthy])
  · rintro (rfl | rfl) res h <;>
      (rw [request_head _ _ _ _ _ _ _ _ h]
       simp [mkRecord, reqEndpoint, reqCL, reqBodyStr, isReadMethod, dataTruthy, jsTruthy])

/-- Witness for C7 at concrete GET and POST calls. -/
theorem c7_witness :
    ((wFresh, 1, [.req (mkRecord wFresh "GET" "players"
        (some (.obj [("limit", .num 0)])))],
      (.resolved .emptyStr : Outcome)) :
        CMState × Nat × List TEv × Outcome).2.2.1.head? =
      some (.req
        { method := "GET",
          path := urlResolve wFresh.basePath
            ("players" ++ "?" ++ qstringify (.obj [("limit", .num 0)])),
          contentType := some "application/json",
          tokenHeader := tokenHdr wFresh,
          contentLength := none,
          body := .empty }) ∧
    ((wFresh, 1, [.req (mkRecord wFresh "POST" "auth/login"
        (some (.obj [("username", .str "u")])))],
      (.resolved .emptyStr : Outcome)) :
        CMState × Nat × List TEv × Outcome).2.2.1.head? =
      some (.req
        { method := "POST",
          path := urlResolve wFresh.basePath "auth/login",
          contentType := some "application/json",
          tokenHeader := tokenHdr wFresh,
          contentLength := some ((jsonEncode (.obj [("username", .str "u")])).utf8ByteSize),
          body := .str (jsonEncode (.obj [("username", .str "u")])) }) ∧
    ((wFresh, 1, [.req (mkRecord wFresh "POST" "fileupload/complete/X" none)],
      (.resolved .emptyStr : Outcome)) :
        CMState × Nat × List TEv × Outcome).2.2.1.head? =
      some (.req
        { method := "POST",
          path := urlResolve wFresh.basePath "fileupload/complete/X",
          contentType := some "application/json",
          tokenHeader := tokenHdr wFresh,
          contentLength := some 0,
          body := .empty }) :=
  ⟨(c7_request_encoding 1 0 wFresh trOK "GET" "players").1 (Or.inl rfl)
      [("limit", .num 0)]
      (wFresh, 1, [.req (mkRecord wFresh "GET" "players"
        (some (.obj [("limit", .num 0)])))], .resolved .emptyStr)
      (by unfold request
          simp [trOK, parsePayload, parseStatus, isExpiryPayload]),
   (c7_request_encoding 1 0 wFresh trOK "POST" "auth/login").2.1 (Or.inl rfl)
      [("username", .str "u")]
      (wFresh, 1, [.req (mkRecord wFresh "POST" "auth/login"
        (some (.obj [("username", .str "u")])))], .resolved .emptyStr)
      (by unfold request
          simp [trOK, parsePayload, parseStatus, isExpiryPayload]),
   (c7_request_encoding 1 0 wFresh trOK "POST" "fileupload/complete/X").2.2
      (Or.inl rfl)
      (wFresh, 1, [.req (mkRecord wFresh "POST" "fileupload/complete/X" none)],
        .resolved .emptyStr)
      (by unfold request
          simp [trOK, parsePayload, parseStatus, isExpiryPayload])⟩

/-! ## C1: expiry detection, one re-login, one retry -/

/-- C1.  A request whose parsed response body is expiry-shaped
(`httpErrorCode == 401`, `code == "NoUserLogon"`) clears both tokens
(the `tokSet null null` event), performs exactly one re-login with the
stored username/password (the single `auth/login` POST, whose body is the
JSON of the stored credentials), and retries the original request exactly
once — same method, path, content-length and body, token header refreshed
to the new token.  The retried response settles the call by the plain
`>= 400` test: status ≥ 400 rejects with its (parsed or synthesized)
payload, otherwise it resolves — so a second expiry-shaped failure on the
retry is rejected, never retried again: the run issues exactly the three
transport requests listed. -/
theorem c1_expiry_single_retry (fuel k : Nat) (st : CMState) (tr : Transport)
    (m e : String) (d : Option JVal) (r0 rl r2 : HttpResp) (vl : JVal)
    (h0 : tr k = .ok r0)
    (hexp : isExpiryPayload (parsePayload r0) = true)
    (h1 : tr (k + 1) = .ok rl)
    (hlb : rl.body = .json vl)
    (hlne : isExpiryVal vl = false)
    (hlst : rl.statusCode < 400)
    (htok : jsInOp st.token_name vl = some true)
    (h2 : tr (k + 2) = .ok r2) :
    request (fuel + 3) st tr k m e d =
      some ({ st with token := getProp vl st.token_name,
                      oldtoken := getProp vl "token",
                      login_response := .val vl },
        k + 3,
        [.req (mkRecord st m e d),
         .tokSet .null .null,
         .req (mkRecord { st with token := .null, oldtoken := .null }
           "POST" "auth/login"
           (some (.obj [("username", st.username), ("password", st.password)]))),
         .lrSet (.val vl),
         .tokSet (getProp vl st.token_name) (getProp vl "token"),
         .req { mkRecord st m e d with
                  tokenHeader := some (st.token_name, getProp vl st.token_name) }],
        if parseStatus r2 ≥ 400 then .rejected (.resp (parsePayload r2))
        else .resolved (parsePayload r2)) ∧
    reqsOf
        [.req (mkRecord st m e d),
         .tokSet .null .null,
         .req (mkRecord { st with token := .null, oldtoken := .null }
           "POST" "auth/login"
           (some (.obj [("username", st.username), ("password", st.password)]))),
         .lrSet (.val vl),
         .tokSet (getProp vl st.token_name) (getProp vl "token"),
         .req { mkRecord st m e d with
                  tokenHeader := some (st.token_name, getProp vl st.token_name) }] =
      [mkRecord st m e d,
       mkRecord { st with token := .null, oldtoken := .null }
         "POST" "auth/login"
         (some (.obj [("username", st.username), ("password", st.password)])),
       { mkRecord st m e d with
           tokenHeader := some (st.token_name, getProp vl st.token_name) }] :=
  ⟨request_expiry_run fuel k st tr m e d r0 rl r2 vl
     h0 hexp h1 hlb hlne hlst htok h2, rfl⟩

/-- Witness for C1: a logged-in client whose `GET players` call hits an
expiry-shaped 401; the re-login delivers `NEWTOK`, the retried call fails
with 404 and that rejection is surfaced, not retried. -/
theorem c1_witness :
    request 3 wLoggedIn trC1 0 "GET" "players" none =
      some ({ wLoggedIn with token := .str "NEWTOK", oldtoken := .str "NEWOLD",
                             login_response := .val wLoginResp },
        3,
        [.req (mkRecord wLoggedIn "GET" "players" none),
         .tokSet .null .null,
         .req (mkRecord { wLoggedIn with token := .null, oldtoken := .null }
           "POST" "auth/login"
           (some (.obj [("username", .str "user"), ("password", .str "pass")]))),
         .lrSet (.val wLoginResp),
         .tokSet (.str "NEWTOK") (.str "NEWOLD"),
         .req { mkRecord wLoggedIn "GET" "players" none with
                  tokenHeader := some ("apiToken", .str "NEWTOK") }],
        .rejected (.resp (.val (.obj [("oops", .num 1)])))) := by
  have h := c1_expiry_single_retry 0 0 wLoggedIn trC1 "GET" "players" none
    { statusCode := 401, statusMessage := "Unauthorized", body := .json wExpiryBody }
    { statusCode := 200, statusMessage := "OK", body := .json wLoginResp }
    { statusCode := 404, statusMessage := "Not Found",
      body := .json (.obj [("oops", .num 1)]) }
    wLoginResp rfl (by decide) rfl rfl (by decide) (by decide) (by decide) rfl
  simpa [wLoggedIn, wFresh, initState, wLoginResp, getProp, lookupField,
    parseStatus, parsePayload] using h.1

/-! ## C10: expiry detection precedes the status check -/

/-- C10.  The expiry branch is tested before the `>= 400` check: a response
whose parsed body is expiry-shaped triggers token clearing, re-login and
one retry even when its transport status is below 400 (the hypotheses force
`r0.statusCode < 400`), instead of resolving with that body — the run
issues three transport requests and settles from the retried response. -/
theorem c10_expiry_beats_status (fuel k : Nat) (st : CMState) (tr : Transport)
    (m e : String) (d : Option JVal) (r0 rl r2 : HttpResp) (v0 vl : JVal)
    (hb0 : r0.body = .json v0)
    (hv0 : isExpiryVal v0 = true)
    (hst0 : r0.statusCode < 400)
    (h0 : tr k = .ok r0)
    (h1 : tr (k + 1) = .ok rl)
    (hlb : rl.body = .json vl)
    (hlne : isExpiryVal vl = false)
    (hlst : rl.statusCode < 400)
    (htok : jsInOp st.token_name vl = some true)
    (h2 : tr (k + 2) = .ok r2) :
    request (fuel + 3) st tr k m e d =
      some ({ st with token := getProp vl st.token_name,
                      oldtoken := getProp vl "token",
                      login_response := .val vl },
        k + 3,
        [.req (mkRecord st m e d),
         .tokSet .null .null,
         .req (mkRecord { st with token := .null, oldtoken := .null }
           "POST" "auth/login"
           (some (.obj [("username", st.username), ("password", st.password)]))),
         .lrSet (.val vl),
         .tokSet (getProp vl st.token_name) (getProp vl "token"),
         .req { mkRecord st m e d with
                  tokenHeader := some (st.token_name, getProp vl st.token_name) }],
        if parseStatus r2 ≥ 400 then .rejected (.resp (parsePayload r2))
        else .resolved (parsePayload r2)) := by
  have hpp0 : parsePayload r0 = .val v0 := by unfold parsePayload; rw [hb0]
  have hexp : isExpiryPayload (parsePayload r0) = true := by
    rw [hpp0]; exact hv0
  exact request_expiry_run fuel k st tr m e d r0 rl r2 vl
    h0 hexp h1 hlb hlne hlst htok h2

/-- Witness for C10: the expiry body arrives with transport status 200;
the call still re-logs-in and retries, resolving with the retried
response's body rather than the expiry body. -/
theorem c10_witness :
    request 3 wLoggedIn trC10 0 "GET" "players" none =
      some ({ wLoggedIn with token := .str "NEWTOK", oldtoken := .str "NEWOLD",
                             login_response := .val wLoginResp },
        3,
        [.req (mkRecord wLoggedIn "GET" "players" none),
         .tokSet .null .null,
         .req (mkRecord { wLoggedIn with token := .null, oldtoken := .null }
           "POST" "auth/login"
           (some (.obj [("username", .str "user"), ("password", .str "pass")]))),
         .lrSet (.val wLoginResp),
         .tokSet (.str "NEWTOK") (.str "NEWOLD"),
         .req { mkRecord wLoggedIn "GET" "players" none with
                  tokenHeader := some ("apiToken", .str "NEWTOK") }],
        .resolved (.val (.obj [("list", .arr [])]))) := by
  have h := c10_expiry_beats_status 0 0 wLoggedIn trC10 "GET" "players" none
    { statusCode := 200, statusMessage := "OK", body := .json wExpiryBody }
    { statusCode := 200, statusMessage := "OK", body := .json wLoginResp }
    { statusCode := 200, statusMessage := "OK",
      body := .json (.obj [("list", .arr [])]) }
    wExpiryBody wLoginResp rfl (by decide) (by decide) rfl rfl rfl
    (by decide) (by decide) (by decide) rfl
  simpa [wLoggedIn, wFresh, initState, wLoginResp, getProp, lookupField,
    parseStatus, parsePayload] using h

/-! ## C6: token extraction from the login response -/

/-- C6.  A login whose `auth/login` call resolves (HTTP success) but whose
response object lacks the configured token-name field rejects with the
explicit "No token received!" error; when the field is present, its value
becomes the current token and the response's `token` field becomes the
previous/alternate token. -/
theorem c6_login_token_extraction (fuel k : Nat) (st : CMState)
    (tr : Transport) (u p : JVal) (rl : HttpResp) (vl : JVal)
    (hnt : jsTruthy st.token = false)
    (h1 : tr k = .ok rl) (hlb : rl.body = .json vl)
    (hlne : isExpiryVal vl = false) (hlst : rl.statusCode < 400) :
    (jsInOp st.token_name vl = some false →
      login (fuel + 2) st tr k u p =
        some ({ st with username := u, password := p,
                        login_response := .val vl },
          k + 1,
          [.req (mkRecord { st with username := u, password := p }
             "POST" "auth/login" (some (.obj [("username", u), ("password", p)]))),
           .lrSet (.val vl)],
          .rejected (.jsError "No token received!"))) ∧
    (jsInOp st.token_name vl = some true →
      login (fuel + 2) st tr k u p =
        some ({ st with username := u, password := p,
                        login_response := .val vl,
                        token := getProp vl st.token_name,
                        oldtoken := getProp vl "token" },
          k + 1,
          [.req (mkRecord { st with username := u, password := p }
             "POST" "auth/login" (some (.obj [("username", u), ("password", p)]))),
           .lrSet (.val vl),
           .tokSet (getProp vl st.token_name) (getProp vl "token")],
          .resolved (.val vl))) := by
  have hpp : parsePayload rl = .val vl := by unfold parsePayload; rw [hlb]
  have hps : parseStatus rl = rl.statusCode := by unfold parseStatus; rw [hlb]
  have hne : isExpiryPayload (parsePayload rl) = false := by rw [hpp]; exact hlne
  constructor
  · intro htok
    rw [login_nologout_unfold (fuel + 1) k st tr u p hnt]
    rw [loginPost_ok fuel k _ tr rl h1 hne (by omega)]
    dsimp only []
    rw [hpp]
    simp only [respInOp]
    rw [htok]
    rfl
  · intro htok
    exact login_ok_nologout fuel k st tr u p rl vl hnt h1 hlb hlne hlst htok

/-- Witness for C6: a missing `apiToken` field rejects with the explicit
error even on HTTP 200; a present field is extracted into the token pair. -/
theorem c6_witness :
    login 2 wFresh trC6miss 0 (.str "u") (.str "p") =
      some ({ wFresh with username := .str "u", password := .str "p",
                          login_response := .val (.obj [("token", .str "ONLYOLD")]) },
        1,
        [.req (mkRecord { wFresh with username := .str "u", password := .str "p" }
           "POST" "auth/login"
           (some (.obj [("username", .str "u"), ("password", .str "p")]))),
         .lrSet (.val (.obj [("token", .str "ONLYOLD")]))],
        .rejected (.jsError "No token received!")) ∧
    login 2 wFresh trC6hit 0 (.str "u") (.str "p") =
      some ({ wFresh with username := .str "u", password := .str "p",
                          login_response := .val wLoginResp,
                          token := .str "NEWTOK", oldtoken := .str "NEWOLD" },
        1,
        [.req (mkRecord { wFresh with username := .str "u", password := .str "p" }
           "POST" "auth/login"
           (some (.obj [("username", .str "u"), ("password", .str "p")]))),
         .lrSet (.val wLoginResp),
         .tokSet (.str "NEWTOK") (.str "NEWOLD")],
        .resolved (.val wLoginResp)) := by
  constructor
  · have h := (c6_login_token_extraction 0 0 wFresh trC6miss (.str "u") (.str "p")
      { statusCode := 200, statusMessage := "OK",
        body := .json (.obj [("token", .str "ONLYOLD")]) }
      (.obj [("token", .str "ONLYOLD")])
      (by decide) rfl rfl (by decide) (by decide)).1 (by decide)
    simpa [wFresh, initState] using h
  · have h := (c6_login_token_extraction 0 0 wFresh trC6hit (.str "u") (.str "p")
      { statusCode := 200, statusMessage := "OK", body := .json wLoginResp }
      wLoginResp (by decide) rfl rfl (by decide) (by decide)).2 (by decide)
    simpa [wFresh, initState, wLoginResp, getProp, lookupField] using h


/-! ## C5: the session-token invariant -/

/-- C5 counterexample.  A server may answer `auth/login` with
`{apiToken: null, token: "T"}`: the configured token field is present, so
`login` RESOLVES (a login has succeeded, and no logout or expiry follows),
yet `this._token` is `null` afterwards — refuting the claimed invariant
"currentToken is non-null iff a login has succeeded and no logout or
expiry detection has occurred since". -/
theorem c5_counterexample :
    login 2 wFresh trC5null 0 (.str "u") (.str "p") =
      some ({ wFresh with username := .str "u", password := .str "p", login_response := .val (.obj [("apiToken", .null), ("token", .str "T")]), token := .null, oldtoken := .str "T" },
        1,
        [.req (mkRecord { wFresh with username := .str "u", password := .str "p" } "POST" "auth/login" (some (.obj [("username", .str "u"), ("password", .str "p")]))),
         .lrSet (.val (.obj [("apiToken", .null), ("token", .str "T")])),
         .tokSet .null (.str "T")],
        .resolved (.val (.obj [("apiToken", .null), ("token", .str "T")]))) := by
  have h := login_ok_nologout 0 0 wFresh trC5null (.str "u") (.str "p")
    { statusCode := 200, statusMessage := "OK",
      body := .json (.obj [("apiToken", .null), ("token", .str "T")]) }
    (.obj [("apiToken", .null), ("token", .str "T")])
    (by decide) rfl rfl (by decide) (by decide) (by decide)
  simpa [wFresh, initState, getProp, lookupField] using h

/-- C5 (amended).  Under a transport with no expiry-shaped responses and
from a reachable token state (`null` or truthy): (A) whenever a logout
precedes the login, both tokens are set to null before the `auth/login`
POST is issued — even when the logout call fails — so that POST carries no
token header; (B) a rejected login leaves the current token null; (C) a
resolved login installs exactly the delivered token pair (so the current
token is non-null iff the login delivered a non-null token value);
(D) expiry detection clears both tokens before the re-login. -/
theorem c5_amended_token_invariant (fuel k : Nat) (st : CMState) (tr : Transport)
    (u p : JVal) (hne : NonExpiry tr)
    (hreach : st.token = .null ∨ jsTruthy st.token = true) :
    (jsTruthy st.token = true →
      ∀ res : CMState × Nat × List TEv × Outcome,
        login (fuel + 2) st tr k u p = some res →
        ∃ T1 T2, res.2.2.1 =
            .lrSet (.val (.obj [])) :: T1 ++ .tokSet .null .null ::
              .req (loginRecord { st with username := u, password := p, login_response := .val (.obj []), token := .null, oldtoken := .null }) :: T2 ∧
          (loginRecord { st with username := u, password := p, login_response := .val (.obj []), token := .null, oldtoken := .null }).tokenHeader = none) ∧
    (∀ res : CMState × Nat × List TEv × Outcome,
      login (fuel + 2) st tr k u p = some res →
      ∀ e, res.2.2.2 = .rejected e → res.1.token = .null) ∧
    (∀ res : CMState × Nat × List TEv × Outcome,
      login (fuel + 2) st tr k u p = some res →
      ∀ v, res.2.2.2 = .resolved v →
        res.1.token = respProp v st.token_name ∧
        res.1.oldtoken = respProp v "token") ∧
    (∀ (tr2 : Transport) (k2 : Nat) (m e : String) (d : Option JVal)
       (r0 : HttpResp) (res : CMState × Nat × List TEv × Outcome),
      tr2 k2 = .ok r0 → isExpiryPayload (parsePayload r0) = true →
      request (fuel + 1) st tr2 k2 m e d = some res →
      ∃ T2, res.2.2.1 = .req (mkRecord st m e d) :: .tokSet .null .null :: T2) := by
  refine ⟨?_, ?_, ?_, ?_⟩
  · -- (A) clearing precedes the auth/login POST even when the logout fails
    intro htk res h
    rw [login_logout_unfold (fuel + 1) k st tr u p htk] at h
    cases htr : tr k with
    | err er =>
      rw [request_err fuel _ tr k _ _ _ er htr] at h
      dsimp only [] at h
      cases hp : loginPost (fuel + 1)
          { ({ st with username := u, password := p, login_response := .val (.obj []) } : CMState) with token := .null, oldtoken := .null } tr (k + 1) with
      | none => rw [hp] at h; exact absurd h (by simp)
      | some resC =>
        obtain ⟨sC, kC, tC, out⟩ := resC
        have hhd := loginPost_head (fuel + 1) (k + 1) _ tr _ hp
        rw [hp] at h
        obtain rfl := Option.some.inj h
        cases tC with
        | nil => simp at hhd
        | cons a tC' =>
          obtain rfl : a = _ := by simpa using hhd
          exact ⟨[.req (mkRecord { st with username := u, password := p, login_response := .val (.obj []) } "GET" "auth/logout" (some (.obj [("token", st.oldtoken)])))], tC', rfl, by simp [loginRecord, mkRecord, tokenHdr, jsTruthy]⟩
    | ok rg =>
      have hgne := hne k rg htr
      rw [request_ok_nonexpiry fuel _ tr k _ _ _ rg htr hgne] at h
      dsimp only [] at h
      cases hp : loginPost (fuel + 1)
          { ({ st with username := u, password := p, login_response := .val (.obj []) } : CMState) with token := .null, oldtoken := .null } tr (k + 1) with
      | none => rw [hp] at h; exact absurd h (by simp)
      | some resC =>
        obtain ⟨sC, kC, tC, out⟩ := resC
        have hhd := loginPost_head (fuel + 1) (k + 1) _ tr _ hp
        rw [hp] at h
        obtain rfl := Option.some.inj h
        cases tC with
        | nil => simp at hhd
        | cons a tC' =>
          obtain rfl : a = _ := by simpa using hhd
          exact ⟨[.req (mkRecord { st with username := u, password := p, login_response := .val (.obj []) } "GET" "auth/logout" (some (.obj [("token", st.oldtoken)])))], tC', rfl, by simp [loginRecord, mkRecord, tokenHdr, jsTruthy]⟩
  · -- (B) a rejected login leaves the token null
    intro res h e hrej
    rcases hreach with hnull | htk
    · rw [login_nologout_unfold (fuel + 1) k st tr u p (by rw [hnull]; rfl)] at h
      have hc := (loginPost_cases fuel k _ tr hne res h).1 e hrej
      rw [hc.1, hnull]
    · rw [login_logout_unfold (fuel + 1) k st tr u p htk] at h
      cases htr : tr k with
      | err er =>
        rw [request_err fuel _ tr k _ _ _ er htr] at h
        dsimp only [] at h
        cases hp : loginPost (fuel + 1)
            { ({ st with username := u, password := p, login_response := .val (.obj []) } : CMState) with token := .null, oldtoken := .null } tr (k + 1) with
        | none => rw [hp] at h; exact absurd h (by simp)
        | some resC =>
          obtain ⟨sC, kC, tC, out⟩ := resC
          have hc := (loginPost_cases fuel (k + 1) _ tr hne _ hp).1
          rw [hp] at h
          obtain rfl := Option.some.inj h
          exact (hc e hrej).1
      | ok rg =>
        have hgne := hne k rg htr
        rw [request_ok_nonexpiry fuel _ tr k _ _ _ rg htr hgne] at h
        dsimp only [] at h
        cases hp : loginPost (fuel + 1)
            { ({ st with username := u, password := p, login_response := .val (.obj []) } : CMState) with token := .null, oldtoken := .null } tr (k + 1) with
        | none => rw [hp] at h; exact absurd h (by simp)
        | some resC =>
          obtain ⟨sC, kC, tC, out⟩ := resC
          have hc := (loginPost_cases fuel (k + 1) _ tr hne _ hp).1
          rw [hp] at h
          obtain rfl := Option.some.inj h
          exact (hc e hrej).1
  · -- (C) a resolved login installs the delivered token pair
    intro res h v hresv
    by_cases htk : jsTruthy st.token = true
    · rw [login_logout_unfold (fuel + 1) k st tr u p htk] at h
      cases htr : tr k with
      | err er =>
        rw [request_err fuel _ tr k _ _ _ er htr] at h
        dsimp only [] at h
        cases hp : loginPost (fuel + 1)
            { ({ st with username := u, password := p, login_response := .val (.obj []) } : CMState) with token := .null, oldtoken := .null } tr (k + 1) with
        | none => rw [hp] at h; exact absurd h (by simp)
        | some resC =>
          obtain ⟨sC, kC, tC, out⟩ := resC
          have hc := (loginPost_cases fuel (k + 1) _ tr hne _ hp).2
          rw [hp] at h
          obtain rfl := Option.some.inj h
          exact ⟨(hc v hresv).1, (hc v hresv).2.1⟩
      | ok rg =>
        have hgne := hne k rg htr
        rw [request_ok_nonexpiry fuel _ tr k _ _ _ rg htr hgne] at h
        dsimp only [] at h
        cases hp : loginPost (fuel + 1)
            { ({ st with username := u, password := p, login_response := .val (.obj []) } : CMState) with token := .null, oldtoken := .null } tr (k + 1) with
        | none => rw [hp] at h; exact absurd h (by simp)
        | some resC =>
          obtain ⟨sC, kC, tC, out⟩ := resC
          have hc := (loginPost_cases fuel (k + 1) _ tr hne _ hp).2
          rw [hp] at h
          obtain rfl := Option.some.inj h
          exact ⟨(hc v hresv).1, (hc v hresv).2.1⟩
    · rw [login_nologout_unfold (fuel + 1) k st tr u p
        (by revert htk; cases jsTruthy st.token <;> simp)] at h
      have hc := (loginPost_cases fuel k _ tr hne res h).2
      exact ⟨(hc v hresv).1, (hc v hresv).2.1⟩
  · -- (D) expiry detection clears both tokens before anything else
    intro tr2 k2 m e d r0 res htr hexp h
    unfold request at h
    rw [htr] at h
    dsimp only [] at h
    rw [if_pos hexp] at h
    cases hl : login (fuel) { st with token := .null, oldtoken := .null }
        tr2 (k2 + 1) st.username st.password with
    | none => rw [hl] at h; exact absurd h (by simp)
    | some resL =>
      obtain ⟨s2, kk, tl, out⟩ := resL
      rw [hl] at h
      cases out with
      | rejected er => obtain rfl := Option.some.inj h; exact ⟨_, rfl⟩
      | pending => obtain rfl := Option.some.inj h; exact ⟨_, rfl⟩
      | resolved vv =>
        dsimp only [] at h
        obtain rfl := Option.some.inj h
        exact ⟨_, rfl⟩

/-- Witness for C5 at concrete runs: (A)/(C) on a logged-in client whose
logout fails at transport level and whose re-login delivers `NEWTOK`;
(B) on a fresh client whose login POST answers 500; (D) on an
expiry-shaped 401 followed by a transport failure of the re-login. -/
theorem c5_witness :
    (∃ T1 T2,
      ([.lrSet (.val (.obj [])),
        .req (mkRecord { wLoggedIn with username := .str "u", password := .str "p", login_response := .val (.obj []) } "GET" "auth/logout" (some (.obj [("token", .str "OLD")]))),
        .tokSet .null .null,
        .req (loginRecord { wLoggedIn with username := .str "u", password := .str "p", login_response := .val (.obj []), token := .null, oldtoken := .null }),
        .lrSet (.val wLoginResp),
        .tokSet (.str "NEWTOK") (.str "NEWOLD")] : List TEv) =
          .lrSet (.val (.obj [])) :: T1 ++ .tokSet .null .null ::
            .req (loginRecord { wLoggedIn with username := .str "u", password := .str "p", login_response := .val (.obj []), token := .null, oldtoken := .null }) :: T2 ∧
        (loginRecord { wLoggedIn with username := .str "u", password := .str "p", login_response := .val (.obj []), token := .null, oldtoken := .null }).tokenHeader = none) ∧
    ({ wFresh with username := .str "u", password := .str "p" } : CMState).token = .null ∧
    (({ wLoggedIn with username := .str "u", password := .str "p", login_response := .val wLoginResp, token := .str "NEWTOK", oldtoken := .str "NEWOLD" } : CMState).token
        = respProp (.val wLoginResp) wLoggedIn.token_name ∧
     ({ wLoggedIn with username := .str "u", password := .str "p", login_response := .val wLoginResp, token := .str "NEWTOK", oldtoken := .str "NEWOLD" } : CMState).oldtoken
        = respProp (.val wLoginResp) "token") ∧
    (∃ T2,
      ([.req (mkRecord wLoggedIn "GET" "players" none),
        .tokSet .null .null,
        .req (loginRecord { wLoggedIn with token := .null, oldtoken := .null })] : List TEv) =
          .req (mkRecord wLoggedIn "GET" "players" none) :: .tokSet .null .null :: T2) := by
  have hneW : NonExpiry trC5w := by
    intro i r h
    cases i with
    | zero => simp [trC5w] at h
    | succ n =>
      rw [show trC5w (n + 1) = .ok { statusCode := 200, statusMessage := "OK", body := .json wLoginResp } from rfl] at h
      obtain rfl := TransportResult.ok.inj h
      decide
  have hneR : NonExpiry trC5rej := by
    intro i r h
    rw [show trC5rej i = .ok { statusCode := 500, statusMessage := "Internal Server Error", body := .json (.obj [("err", .num 1)]) } from rfl] at h
    obtain rfl := TransportResult.ok.inj h
    decide
  have hA := c5_amended_token_invariant 0 0 wLoggedIn trC5w (.str "u") (.str "p")
    hneW (Or.inr (by decide))
  have hB := c5_amended_token_invariant 0 0 wFresh trC5rej (.str "u") (.str "p")
    hneR (Or.inl rfl)
  have hrun1 : login 2 wLoggedIn trC5w 0 (.str "u") (.str "p") =
      some ({ wLoggedIn with username := .str "u", password := .str "p", login_response := .val wLoginResp, token := .str "NEWTOK", oldtoken := .str "NEWOLD" },
        2,
        [.lrSet (.val (.obj [])),
         .req (mkRecord { wLoggedIn with username := .str "u", password := .str "p", login_response := .val (.obj []) } "GET" "auth/logout" (some (.obj [("token", .str "OLD")]))),
         .tokSet .null .null,
         .req (loginRecord { wLoggedIn with username := .str "u", password := .str "p", login_response := .val (.obj []), token := .null, oldtoken := .null }),
         .lrSet (.val wLoginResp),
         .tokSet (.str "NEWTOK") (.str "NEWOLD")],
        .resolved (.val wLoginResp)) := by
    rw [login_logout_unfold 1 0 wLoggedIn trC5w (.str "u") (.str "p") (by decide)]
    rw [request_err 0 _ trC5w 0 _ _ _ "ECONNRESET" rfl]
    dsimp only []
    rw [loginPost_ok 0 1 _ trC5w
      { statusCode := 200, statusMessage := "OK", body := .json wLoginResp }
      rfl (by decide) (by decide)]
    simp [wLoggedIn, wFresh, initState, wLoginResp, parsePayload, respInOp, jsInOp,
      lookupField, respProp, getProp, loginRecord]
  have hrun2 : login 2 wFresh trC5rej 0 (.str "u") (.str "p") =
      some ({ wFresh with username := .str "u", password := .str "p" },
        1,
        [.req (loginRecord { wFresh with username := .str "u", password := .str "p" })],
        .rejected (.resp (.val (.obj [("err", .num 1)])))) := by
    rw [login_nologout_unfold 1 0 wFresh trC5rej (.str "u") (.str "p") (by decide)]
    rw [loginPost_reject 0 0 _ trC5rej
      { statusCode := 500, statusMessage := "Internal Server Error",
        body := .json (.obj [("err", .num 1)]) }
      rfl (by decide) (by decide)]
    simp [parsePayload]
  have hrunD : request 3 wLoggedIn trC5d 0 "GET" "players" none =
      some ({ wLoggedIn with token := .null, oldtoken := .null, username := .str "user", password := .str "pass" },
        2,
        [.req (mkRecord wLoggedIn "GET" "players" none),
         .tokSet .null .null,
         .req (loginRecord { wLoggedIn with token := .null, oldtoken := .null })],
        .rejected (.transport "EC2")) := by
    unfold request
    rw [show trC5d 0 = .ok { statusCode := 401, statusMessage := "Unauthorized", body := .json wExpiryBody } from rfl]
    dsimp only []
    rw [if_pos (by decide)]
    rw [login_nologout_unfold 1 1 _ trC5d _ _ (by decide)]
    rw [loginPost_err 0 1 _ trC5d "EC2" rfl]
    dsimp only []
    simp [wLoggedIn, wFresh, initState, loginRecord]
  refine ⟨hA.1 (by decide) _ hrun1, ?_, ⟨(hA.2.2.1 _ hrun1 (.val wLoginResp) rfl).1, (hA.2.2.1 _ hrun1 (.val wLoginResp) rfl).2⟩, ?_⟩
  · exact hB.2.1 _ hrun2 (.resp (.val (.obj [("err", .num 1)]))) rfl
  · have hD := c5_amended_token_invariant 2 0 wLoggedIn trC5w (.str "u") (.str "p")
      hneW (Or.inr (by decide))
    exact hD.2.2.2 trC5d 0 "GET" "players" none
      { statusCode := 401, statusMessage := "Unauthorized", body := .json wExpiryBody }
      _ rfl (by decide) hrunD

/-! ## C9: the cached last-login-response -/

/-- C9 (amended).  Under a transport with no expiry-shaped responses:
(i) every login whose `auth/login` call resolves overwrites
`login_response` with that call's response; (ii) whenever a logout
precedes it, the cache is first reset to an empty object — the first trace
event; (iii) in a failed-logout run the assignments to the cache are
exactly the transient empty object and then the login call's response:
the logout's own outcome is never stored. -/
theorem c9_amended_login_response (fuel k : Nat) (st : CMState) (tr : Transport)
    (u p : JVal) (hne : NonExpiry tr) :
    (∀ (res : CMState × Nat × List TEv × Outcome) (v : RespPayload),
      login (fuel + 2) st tr k u p = some res → res.2.2.2 = .resolved v →
      res.1.login_response = v) ∧
    (jsTruthy st.token = true →
      ∀ res : CMState × Nat × List TEv × Outcome,
        login (fuel + 2) st tr k u p = some res →
        res.2.2.1.head? = some (.lrSet (.val (.obj [])))) ∧
    (∀ (erg : String) (rl : HttpResp) (vl : JVal),
      jsTruthy st.token = true → tr k = .err erg → tr (k + 1) = .ok rl →
      rl.body = .json vl → isExpiryVal vl = false → rl.statusCode < 400 →
      jsInOp st.token_name vl = some true →
      login (fuel + 2) st tr k u p =
        some ({ st with username := u, password := p, login_response := .val vl, token := getProp vl st.token_name, oldtoken := getProp vl "token" },
          k + 2,
          [.lrSet (.val (.obj [])),
           .req (mkRecord { st with username := u, password := p, login_response := .val (.obj []) } "GET" "auth/logout" (some (.obj [("token", st.oldtoken)]))),
           .tokSet .null .null,
           .req (loginRecord { st with username := u, password := p, login_response := .val (.obj []), token := .null, oldtoken := .null }),
           .lrSet (.val vl),
           .tokSet (getProp vl st.token_name) (getProp vl "token")],
          .resolved (.val vl))) := by
  refine ⟨?_, ?_, ?_⟩
  · -- (i) a resolving login caches exactly its response
    intro res v h hres
    by_cases htk : jsTruthy st.token = true
    · rw [login_logout_unfold (fuel + 1) k st tr u p htk] at h
      cases htr : tr k with
      | err er =>
        rw [request_err fuel _ tr k _ _ _ er htr] at h
        dsimp only [] at h
        cases hp : loginPost (fuel + 1)
            { ({ st with username := u, password := p, login_response := .val (.obj []) } : CMState) with token := .null, oldtoken := .null } tr (k + 1) with
        | none => rw [hp] at h; exact absurd h (by simp)
        | some resC =>
          obtain ⟨sC, kC, tC, out⟩ := resC
          have hc := (loginPost_cases fuel (k + 1) _ tr hne _ hp).2
          rw [hp] at h
          obtain rfl := Option.some.inj h
          exact (hc v hres).2.2
      | ok rg =>
        have hgne := hne k rg htr
        rw [request_ok_nonexpiry fuel _ tr k _ _ _ rg htr hgne] at h
        dsimp only [] at h
        cases hp : loginPost (fuel + 1)
            { ({ st with username := u, password := p, login_response := .val (.obj []) } : CMState) with token := .null, oldtoken := .null } tr (k + 1) with
        | none => rw [hp] at h; exact absurd h (by simp)
        | some resC =>
          obtain ⟨sC, kC, tC, out⟩ := resC
          have hc := (loginPost_cases fuel (k + 1) _ tr hne _ hp).2
          rw [hp] at h
          obtain rfl := Option.some.inj h
          exact (hc v hres).2.2
    · rw [login_nologout_unfold (fuel + 1) k st tr u p
        (by revert htk; cases jsTruthy st.token <;> simp)] at h
      exact ((loginPost_cases fuel k _ tr hne res h).2 v hres).2.2
  · -- (ii) the cache is reset to an empty object before the logout
    intro htk res h
    rw [login_logout_unfold (fuel + 1) k st tr u p htk] at h
    cases htr : tr k with
    | err er =>
      rw [request_err fuel _ tr k _ _ _ er htr] at h
      dsimp only [] at h
      cases hp : loginPost (fuel + 1)
          { ({ st with username := u, password := p, login_response := .val (.obj []) } : CMState) with token := .null, oldtoken := .null } tr (k + 1) with
      | none => rw [hp] at h; exact absurd h (by simp)
      | some resC =>
        obtain ⟨sC, kC, tC, out⟩ := resC
        rw [hp] at h
        obtain rfl := Option.some.inj h
        rfl
    | ok rg =>
      have hgne := hne k rg htr
      rw [request_ok_nonexpiry fuel _ tr k _ _ _ rg htr hgne] at h
      dsimp only [] at h
      cases hp : loginPost (fuel + 1)
          { ({ st with username := u, password := p, login_response := .val (.obj []) } : CMState) with token := .null, oldtoken := .null } tr (k + 1) with
      | none => rw [hp] at h; exact absurd h (by simp)
      | some resC =>
        obtain ⟨sC, kC, tC, out⟩ := resC
        rw [hp] at h
        obtain rfl := Option.some.inj h
        rfl
  · -- (iii) failed logout: {} transiently, then the login response
    intro erg rl vl htk htr h1 hlb hlne hlst htok
    have hpp : parsePayload rl = .val vl := by unfold parsePayload; rw [hlb]
    have hps : parseStatus rl = rl.statusCode := by unfold parseStatus; rw [hlb]
    have hnel : isExpiryPayload (parsePayload rl) = false := by rw [hpp]; exact hlne
    rw [login_logout_unfold (fuel + 1) k st tr u p htk]
    rw [request_err fuel _ tr k _ _ _ erg htr]
    dsimp only []
    rw [loginPost_ok fuel (k + 1) _ tr rl h1 hnel (by omega)]
    dsimp only []
    rw [hpp]
    simp only [respInOp]
    rw [htok]
    simp only [respProp]
    simp [loginRecord]

/-- The concrete C9 run: logout answered 400 with body `{oops: 1}`, login
resolves with the tokened response. -/
theorem login_run_trC9 :
    login 2 wLoggedIn trC9 0 (.str "u") (.str "p") =
      some ({ wLoggedIn with username := .str "u", password := .str "p", login_response := .val wLoginResp, token := .str "NEWTOK", oldtoken := .str "NEWOLD" },
        2,
        [.lrSet (.val (.obj [])),
         .req (mkRecord { wLoggedIn with username := .str "u", password := .str "p", login_response := .val (.obj []) } "GET" "auth/logout" (some (.obj [("token", .str "OLD")]))),
         .tokSet .null .null,
         .req (loginRecord { wLoggedIn with username := .str "u", password := .str "p", login_response := .val (.obj []), token := .null, oldtoken := .null }),
         .lrSet (.val wLoginResp),
         .tokSet (.str "NEWTOK") (.str "NEWOLD")],
        .resolved (.val wLoginResp)) := by
  rw [login_logout_unfold 1 0 wLoggedIn trC9 (.str "u") (.str "p") (by decide)]
  rw [request_ok_nonexpiry 0 _ trC9 0 _ _ _
    { statusCode := 400, statusMessage := "Bad Request", body := .json (.obj [("oops", .num 1)]) }
    rfl (by decide)]
  dsimp only []
  rw [loginPost_ok 0 1 _ trC9
    { statusCode := 200, statusMessage := "OK", body := .json wLoginResp }
    rfl (by decide) (by decide)]
  simp [wLoggedIn, wFresh, initState, wLoginResp, parsePayload, respInOp, jsInOp,
    lookupField, respProp, getProp, loginRecord]

/-- C9 counterexample.  In a run whose logout is answered 400 with the
distinctive body `{oops: 1}`, the assignments to `login_response` are
exactly `{}` (src/index.js:430) and then the login call's response: the
failed logout's response is NEVER stored there, transiently or otherwise,
contradicting the claim. -/
theorem c9_counterexample :
    login 2 wLoggedIn trC9 0 (.str "u") (.str "p") =
      some ({ wLoggedIn with username := .str "u", password := .str "p", login_response := .val wLoginResp, token := .str "NEWTOK", oldtoken := .str "NEWOLD" },
        2,
        [.lrSet (.val (.obj [])),
         .req (mkRecord { wLoggedIn with username := .str "u", password := .str "p", login_response := .val (.obj []) } "GET" "auth/logout" (some (.obj [("token", .str "OLD")]))),
         .tokSet .null .null,
         .req (loginRecord { wLoggedIn with username := .str "u", password := .str "p", login_response := .val (.obj []), token := .null, oldtoken := .null }),
         .lrSet (.val wLoginResp),
         .tokSet (.str "NEWTOK") (.str "NEWOLD")],
        .resolved (.val wLoginResp)) ∧
    lrSetsOf
        [.lrSet (.val (.obj [])),
         .req (mkRecord { wLoggedIn with username := .str "u", password := .str "p", login_response := .val (.obj []) } "GET" "auth/logout" (some (.obj [("token", .str "OLD")]))),
         .tokSet .null .null,
         .req (loginRecord { wLoggedIn with username := .str "u", password := .str "p", login_response := .val (.obj []), token := .null, oldtoken := .null }),
         .lrSet (.val wLoginResp),
         .tokSet (.str "NEWTOK") (.str "NEWOLD")] =
      [.val (.obj []), .val wLoginResp] :=
  ⟨login_run_trC9, rfl⟩

/-- Witness for C9: the cache conclusions at the concrete 400-logout run,
and the explicit failed-logout run equality on the transport whose logout
dies with `ECONNRESET`. -/
theorem c9_witness :
    ({ wLoggedIn with username := .str "u", password := .str "p", login_response := .val wLoginResp, token := .str "NEWTOK", oldtoken := .str "NEWOLD" } : CMState).login_response
      = .val wLoginResp ∧
    ([.lrSet (.val (.obj [])),
      .req (mkRecord { wLoggedIn with username := .str "u", password := .str "p", login_response := .val (.obj []) } "GET" "auth/logout" (some (.obj [("token", .str "OLD")]))),
      .tokSet .null .null,
      .req (loginRecord { wLoggedIn with username := .str "u", password := .str "p", login_response := .val (.obj []), token := .null, oldtoken := .null }),
      .lrSet (.val wLoginResp),
      .tokSet (.str "NEWTOK") (.str "NEWOLD")] : List TEv).head? =
        some (.lrSet (.val (.obj []))) ∧
    login 2 wLoggedIn trC5w 0 (.str "u") (.str "p") =
      some ({ wLoggedIn with username := .str "u", password := .str "p", login_response := .val wLoginResp, token := .str "NEWTOK", oldtoken := .str "NEWOLD" },
        2,
        [.lrSet (.val (.obj [])),
         .req (mkRecord { wLoggedIn with username := .str "u", password := .str "p", login_response := .val (.obj []) } "GET" "auth/logout" (some (.obj [("token", .str "OLD")]))),
         .tokSet .null .null,
         .req (loginRecord { wLoggedIn with username := .str "u", password := .str "p", login_response := .val (.obj []), token := .null, oldtoken := .null }),
         .lrSet (.val wLoginResp),
         .tokSet (.str "NEWTOK") (.str "NEWOLD")],
        .resolved (.val wLoginResp)) := by
  have hne9 : NonExpiry trC9 := by
    intro i r h
    cases i with
    | zero =>
      rw [show trC9 0 = .ok { statusCode := 400, statusMessage := "Bad Request", body := .json (.obj [("oops", .num 1)]) } from rfl] at h
      obtain rfl := TransportResult.ok.inj h
      decide
    | succ n =>
      rw [show trC9 (n + 1) = .ok { statusCode := 200, statusMessage := "OK", body := .json wLoginResp } from rfl] at h
      obtain rfl := TransportResult.ok.inj h
      decide
  have hneW : NonExpiry trC5w := by
    intro i r h
    cases i with
    | zero => simp [trC5w] at h
    | succ n =>
      rw [show trC5w (n + 1) = .ok { statusCode := 200, statusMessage := "OK", body := .json wLoginResp } from rfl] at h
      obtain rfl := TransportResult.ok.inj h
      decide
  have h9 := c9_amended_login_response 0 0 wLoggedIn trC9 (.str "u") (.str "p") hne9
  have hW := c9_amended_login_response 0 0 wLoggedIn trC5w (.str "u") (.str "p") hneW
  refine ⟨h9.1 _ (.val wLoginResp) login_run_trC9 rfl,
          h9.2.1 (by decide) _ login_run_trC9,
          ?_⟩
  have h3 := hW.2.2 "ECONNRESET"
    { statusCode := 200, statusMessage := "OK", body := .json wLoginResp }
    wLoginResp (by decide) rfl rfl rfl (by decide) (by decide) (by decide)
  simpa [wLoggedIn, wFresh, initState, wLoginResp, getProp, lookupField] using h3


/-! ## Trace bookkeeping lemmas and the upload claims -/

theorem reqsOf_nil : reqsOf [] = [] := rfl
theorem reqsOf_cons_req (r : ReqRecord) (T : List TEv) :
    reqsOf (.req r :: T) = r :: reqsOf T := rfl
theorem reqsOf_cons_tokSet (a b : JVal) (T : List TEv) :
    reqsOf (.tokSet a b :: T) = reqsOf T := rfl
theorem reqsOf_cons_lrSet (v : RespPayload) (T : List TEv) :
    reqsOf (.lrSet v :: T) = reqsOf T := rfl
theorem reqsOf_append (T1 T2 : List TEv) :
    reqsOf (T1 ++ T2) = reqsOf T1 ++ reqsOf T2 := by
  induction T1 with
  | nil => rfl
  | cons a T1 ih =>
    cases a <;> simp [reqsOf_cons_req, reqsOf_cons_tokSet, reqsOf_cons_lrSet, ih, reqsOf]

/-- Every transport request a `request`/`login`/`loginPost` run issues uses
the original method or one of the two fixed session-manager methods. -/
theorem methods_all (fuel : Nat) :
    (∀ (st : CMState) (tr : Transport) (k : Nat) (m e : String) (d : Option JVal)
       (res : CMState × Nat × List TEv × Outcome),
      request fuel st tr k m e d = some res →
      ∀ rc ∈ reqsOf res.2.2.1, rc.method = m ∨ rc.method = "GET" ∨ rc.method = "POST") ∧
    (∀ (st : CMState) (tr : Transport) (k : Nat) (u p : JVal)
       (res : CMState × Nat × List TEv × Outcome),
      login fuel st tr k u p = some res →
      ∀ rc ∈ reqsOf res.2.2.1, rc.method = "GET" ∨ rc.method = "POST") ∧
    (∀ (st : CMState) (tr : Transport) (k : Nat)
       (res : CMState × Nat × List TEv × Outcome),
      loginPost fuel st tr k = some res →
      ∀ rc ∈ reqsOf res.2.2.1, rc.method = "GET" ∨ rc.method = "POST") := by
  induction fuel with
  | zero =>
    refine ⟨?_, ?_, ?_⟩
    · intro st tr k m e d res h; simp [request] at h
    · intro st tr k u p res h; simp [login] at h
    · intro st tr k res h
      unfold loginPost at h
      simp [request] at h
  | succ f ih =>
    obtain ⟨ihP, ihQ, ihR⟩ := ih
    have hP : ∀ (st : CMState) (tr : Transport) (k : Nat) (m e : String)
        (d : Option JVal) (res : CMState × Nat × List TEv × Outcome),
        request (f + 1) st tr k m e d = some res →
        ∀ rc ∈ reqsOf res.2.2.1,
          rc.method = m ∨ rc.method = "GET" ∨ rc.method = "POST" := by
      intro st tr k m e d res h rc hrc
      obtain ⟨st', k', T, out⟩ := res
      unfold request at h
      cases htr : tr k with
      | err er =>
        rw [htr] at h; dsimp only [] at h
        obtain ⟨h1, h2, h3, h4⟩ := by
          simpa only [Option.some.injEq, Prod.mk.injEq] using h
        subst h3
        simp only [reqsOf_cons_req, reqsOf_nil, List.mem_singleton] at hrc
        subst hrc
        exact Or.inl rfl
      | ok r =>
        rw [htr] at h; dsimp only [] at h
        by_cases hexp : isExpiryPayload (parsePayload r) = true
        · rw [if_pos hexp] at h
          cases hl : login f { st with token := .null, oldtoken := .null }
              tr (k + 1) st.username st.password with
          | none => rw [hl] at h; exact absurd h (by simp)
          | some resL =>
            obtain ⟨s2, k2, tl, out2⟩ := resL
            have hQ := ihQ _ tr (k + 1) _ _ _ hl
            rw [hl] at h
            cases out2 with
            | rejected er =>
              obtain ⟨h1, h2, h3, h4⟩ := by
                simpa only [Option.some.injEq, Prod.mk.injEq] using h
              subst h3
              simp only [reqsOf_cons_req, reqsOf_cons_tokSet, List.mem_cons] at hrc
              rcases hrc with rfl | hrc
              · exact Or.inl rfl
              · exact Or.inr (hQ rc hrc)
            | pending =>
              obtain ⟨h1, h2, h3, h4⟩ := by
                simpa only [Option.some.injEq, Prod.mk.injEq] using h
              subst h3
              simp only [reqsOf_cons_req, reqsOf_cons_tokSet, List.mem_cons] at hrc
              rcases hrc with rfl | hrc
              · exact Or.inl rfl
              · exact Or.inr (hQ rc hrc)
            | resolved v =>
              dsimp only [] at h
              obtain ⟨h1, h2, h3, h4⟩ := by
                simpa only [Option.some.injEq, Prod.mk.injEq] using h
              subst h3
              simp only [reqsOf_cons_req, reqsOf_cons_tokSet, reqsOf_append,
                List.mem_cons, List.mem_append] at hrc
              rcases hrc with rfl | hrc | hrc
              · exact Or.inl rfl
              · exact Or.inr (hQ rc hrc)
              · unfold retryCall at hrc
                cases htr2 : tr k2 with
                | err e2 =>
                  rw [htr2] at hrc
                  simp only [reqsOf_cons_req, reqsOf_nil, List.mem_singleton] at hrc
                  subst hrc
                  exact Or.inl rfl
                | ok r2 =>
                  rw [htr2] at hrc
                  simp only [reqsOf_cons_req, reqsOf_nil, List.mem_singleton] at hrc
                  subst hrc
                  exact Or.inl rfl
        · rw [if_neg hexp] at h
          split at h <;>
          · obtain ⟨h1, h2, h3, h4⟩ := by
              simpa only [Option.some.injEq, Prod.mk.injEq] using h
            subst h3
            simp only [reqsOf_cons_req, reqsOf_nil, List.mem_singleton] at hrc
            subst hrc
            exact Or.inl rfl
    have hR : ∀ (st : CMState) (tr : Transport) (k : Nat)
        (res : CMState × Nat × List TEv × Outcome),
        loginPost (f + 1) st tr k = some res →
        ∀ rc ∈ reqsOf res.2.2.1, rc.method = "GET" ∨ rc.method = "POST" := by
      intro st tr k res h rc hrc
      unfold loginPost at h
      cases hq : request (f + 1) st tr k "POST" "auth/login"
          (some (.obj [("username", st.username), ("password", st.password)])) with
      | none => rw [hq] at h; exact absurd h (by simp)
      | some r2 =>
        obtain ⟨s2, k2, t2, out⟩ := r2
        have hmm := hP st tr k _ _ _ _ hq
        rw [hq] at h
        have hconv : ∀ x ∈ reqsOf t2, x.method = "GET" ∨ x.method = "POST" := by
          intro x hx
          rcases hmm x hx with h' | h' | h'
          · exact Or.inr h'
          · exact Or.inl h'
          · exact Or.inr h'
        cases out with
        | rejected e2 =>
          obtain rfl := Option.some.inj h
          exact hconv rc hrc
        | pending =>
          obtain rfl := Option.some.inj h
          exact hconv rc hrc
        | resolved v =>
          dsimp only [] at h
          cases hio : respInOp s2.token_name v with
          | none =>
            rw [hio] at h
            obtain rfl := Option.some.inj h
            dsimp only [] at hrc
            simp only [reqsOf_append, List.mem_append] at hrc
            rcases hrc with hrc | hrc
            · exact hconv rc hrc
            · simp [reqsOf] at hrc
          | some b =>
            cases b with
            | false =>
              rw [hio] at h
              obtain rfl := Option.some.inj h
              dsimp only [] at hrc
              simp only [reqsOf_append, List.mem_append] at hrc
              rcases hrc with hrc | hrc
              · exact hconv rc hrc
              · simp [reqsOf] at hrc
            | true =>
              rw [hio] at h
              obtain rfl := Option.some.inj h
              dsimp only [] at hrc
              simp only [reqsOf_append, List.mem_append] at hrc
              rcases hrc with hrc | hrc
              · exact hconv rc hrc
              · simp [reqsOf] at hrc
    have hQ : ∀ (st : CMState) (tr : Transport) (k : Nat) (u p : JVal)
        (res : CMState × Nat × List TEv × Outcome),
        login (f + 1) st tr k u p = some res →
        ∀ rc ∈ reqsOf res.2.2.1, rc.method = "GET" ∨ rc.method = "POST" := by
      intro st tr k u p res h rc hrc
      unfold login at h
      dsimp only [] at h
      by_cases htk : jsTruthy st.token = true
      · rw [if_pos htk] at h
        cases hq : request f { st with username := u, password := p, login_response := .val (.obj []) }
            tr k "GET" "auth/logout"
            (some (.obj [("token", st.oldtoken)])) with
        | none => rw [hq] at h; exact absurd h (by simp)
        | some rB =>
          obtain ⟨sB, kB, tB, outB⟩ := rB
          have hPf := ihP _ tr k _ _ _ _ hq
          rw [hq] at h
          dsimp only [] at h
          cases hp : loginPost f { sB with token := .null, oldtoken := .null } tr kB with
          | none => rw [hp] at h; exact absurd h (by simp)
          | some rC =>
            obtain ⟨sC, kC, tC, outC⟩ := rC
            have hRf := ihR _ tr kB _ hp
            rw [hp] at h
            obtain rfl := Option.some.inj h
            dsimp only [] at hrc
            simp only [reqsOf_cons_lrSet, reqsOf_append, reqsOf_cons_tokSet,
              List.mem_append] at hrc
            rcases hrc with hrc | hrc
            · rcases hPf rc hrc with h' | h' | h'
              · exact Or.inl h'
              · exact Or.inl h'
              · exact Or.inr h'
            · exact hRf rc hrc
      · rw [if_neg htk] at h
        exact ihR _ tr k _ h rc hrc
    exact ⟨hP, hQ, hR⟩

/-- The trace of any `request` run contains no PUT record unless the call's
own method is PUT. -/
theorem request_no_put (fuel : Nat) (st : CMState) (tr : Transport) (k : Nat)
    (m e : String) (d : Option JVal) (res : CMState × Nat × List TEv × Outcome)
    (hm : m ≠ "PUT") (h : request fuel st tr k m e d = some res) :
    putsOf res.2.2.1 = [] := by
  unfold putsOf
  rw [List.filter_eq_nil_iff]
  intro rc hrc
  rcases (methods_all fuel).1 st tr k m e d res h rc hrc with h' | h' | h' <;>
    simp [h', hm]

/-- `uploadDelete` under a non-expiry response to the DELETE: the delete is
issued; if it resolves the original error is rejected, if it rejects the
delete's own rejection propagates instead. -/
theorem uploadDelete_run (fuel k : Nat) (st : CMState) (tr : Transport)
    (trace : List TEv) (mediaId : JVal) (origErr : RejPayload) (rD : HttpResp)
    (htr : tr k = .ok rD)
    (hne : isExpiryPayload (parsePayload rD) = false) :
    uploadDelete (fuel + 1) st tr k trace mediaId origErr =
      some (st, k + 1,
        trace ++ [.req (mkRecord st "DELETE" ("media/" ++ jsToStr mediaId) none)],
        if parseStatus rD ≥ 400 then .rejected (.resp (parsePayload rD))
        else .rejected origErr) := by
  unfold uploadDelete
  rw [request_ok_nonexpiry fuel st tr k _ _ _ rD htr hne]
  by_cases hge : parseStatus rD ≥ 400
  · rw [if_pos hge, if_pos hge]
  · rw [if_neg hge, if_neg hge]

/-- `uploadComplete` under a non-expiry response to the completion POST:
resolve with the init result, or propagate the completion's rejection. -/
theorem uploadComplete_run (fuel k : Nat) (st : CMState) (tr : Transport)
    (trace : List TEv) (uuid : JVal) (respInit : RespPayload) (rC : HttpResp)
    (htr : tr k = .ok rC)
    (hne : isExpiryPayload (parsePayload rC) = false) :
    uploadComplete (fuel + 1) st tr k trace uuid respInit =
      some (st, k + 1,
        trace ++ [.req (mkRecord st "POST" ("fileupload/complete/" ++ jsToStr uuid) none)],
        if parseStatus rC ≥ 400 then .rejected (.resp (parsePayload rC))
        else .resolved respInit) := by
  unfold uploadComplete
  rw [request_ok_nonexpiry fuel st tr k _ _ _ rC htr hne]
  by_cases hge : parseStatus rC ≥ 400
  · rw [if_pos hge, if_pos hge]
  · rw [if_neg hge, if_neg hge]

/-- The unknown-length loop runs through a prefix of data chunks whose PUTs
all succeed (status < 300), issuing one PUT per chunk at the running offset
and advancing transport index, offset and trace accordingly. -/
theorem uploadLoop_data (fuel : Nat) (st : CMState) (tr : Transport)
    (uuid mediaId : JVal) (respInit : RespPayload) (rOf : Nat → HttpResp) :
    ∀ (cs : List (List Nat)) (k off : Nat) (evs : List SEv) (trace : List TEv),
    (∀ i, i < cs.length → tr (k + i) = .ok (rOf (k + i)) ∧ (rOf (k + i)).statusCode < 300) →
    uploadLoop fuel st tr uuid mediaId respInit k off (cs.map .data ++ evs) trace =
      uploadLoop fuel st tr uuid mediaId respInit (k + cs.length)
        (off + (cs.map List.length).sum) evs (trace ++ chunkTrace st uuid off cs) := by
  intro cs
  induction cs with
  | nil => intro k off evs trace hok; simp [chunkTrace]
  | cons c cs ih =>
    intro k off evs trace hok
    have h0 := hok 0 (by simp)
    simp only [Nat.add_zero] at h0
    obtain ⟨h0a, h0b⟩ := h0
    simp only [List.map_cons, List.cons_append]
    rw [uploadLoop]
    rw [h0a]
    dsimp only []
    rw [if_neg (show ¬((rOf k).statusCode ≥ 300) by omega)]
    have ih' := ih (k + 1) (off + c.length) evs (trace ++ [.req (uploadChunkRecord st uuid off c.length (.chunk c))])
      (by intro i hi
          have := hok (i + 1) (by simpa using Nat.succ_lt_succ hi)
          simpa [Nat.add_assoc, Nat.add_comm, Nat.add_left_comm] using this)
    rw [ih']
    simp [chunkTrace, Nat.add_assoc, Nat.add_comm, Nat.add_left_comm]

/-- Length of the expected PUT-record sequence. -/
theorem chunkTrace_length (st : CMState) (uuid : JVal) :
    ∀ (cs : List (List Nat)) (off : Nat), (chunkTrace st uuid off cs).length = cs.length := by
  intro cs
  induction cs with
  | nil => intro off; rfl
  | cons c cs ih => intro off; simp [chunkTrace, ih]

/-- The i-th PUT of the expected sequence is at offset
`base + len c1 + ... + len c(i-1)` with content length `len ci`. -/
theorem chunkTrace_getElem (st : CMState) (uuid : JVal) :
    ∀ (cs : List (List Nat)) (off i : Nat) (c : List Nat),
    cs[i]? = some c →
    (chunkTrace st uuid off cs)[i]? =
      some (.req (uploadChunkRecord st uuid
        (off + ((cs.take i).map List.length).sum) c.length (.chunk c))) := by
  intro cs
  induction cs with
  | nil => intro off i c h; simp at h
  | cons c0 cs ih =>
    intro off i c h
    cases i with
    | zero =>
      simp only [List.getElem?_cons_zero, Option.some.injEq] at h
      subst h
      simp [chunkTrace]
    | succ i =>
      simp only [List.getElem?_cons_succ] at h
      have := ih (off + c0.length) i c h
      simp only [chunkTrace, List.getElem?_cons_succ]
      rw [this]
      simp [Nat.add_assoc]

/-- Every record of the expected PUT sequence is a PUT. -/
theorem chunkTrace_methods (st : CMState) (uuid : JVal) :
    ∀ (cs : List (List Nat)) (off : Nat),
    ∀ rc ∈ reqsOf (chunkTrace st uuid off cs), rc.method = "PUT" := by
  intro cs
  induction cs with
  | nil => intro off rc hrc; simp [chunkTrace, reqsOf] at hrc
  | cons c cs ih =>
    intro off rc hrc
    simp only [chunkTrace, reqsOf_cons_req, List.mem_cons] at hrc
    rcases hrc with rfl | hrc
    · rfl
    · exact ih (off + c.length) rc hrc

theorem deletesOf_chunkTrace (st : CMState) (uuid : JVal)
    (cs : List (List Nat)) (off : Nat) :
    deletesOf (chunkTrace st uuid off cs) = [] := by
  unfold deletesOf
  rw [List.filter_eq_nil_iff]
  intro rc hrc
  simp [chunkTrace_methods st uuid cs off rc hrc]

theorem putsOf_chunkTrace (st : CMState) (uuid : JVal)
    (cs : List (List Nat)) (off : Nat) :
    putsOf (chunkTrace st uuid off cs) = reqsOf (chunkTrace st uuid off cs) := by
  unfold putsOf
  rw [List.filter_eq_self]
  intro rc hrc
  simp [chunkTrace_methods st uuid cs off rc hrc]

/-- C3 (amended).  After a resolving init call: (a) a part-upload PUT
answered with HTTP status ≥ 300 triggers exactly one compensating
`DELETE media/{mediaId}` — the only DELETE of the run, issued after the
failing PUT and before the promise settles — and the caller sees an error
carrying the PUT's status message and code unless the delete itself
rejects, in which case the delete's rejection propagates instead;
(b) a transport-level failure of the PUT rejects directly with the
transport error and NO compensating delete is attempted; (c) the same
single-delete behavior holds on the unknown-length path after any prefix
of successful chunk PUTs. -/
theorem c3_amended_compensating_delete (fuel k : Nat) (st : CMState) (tr : Transport)
    (rs : RStream) (cmpath : String) (ut : Option String)
    (rI : HttpResp) (vI : JVal)
    (hI : tr k = .ok rI) (hIb : rI.body = .json vI)
    (hIne : isExpiryVal vI = false) (hIst : rI.statusCode < 400) :
    (∀ (N : Nat) (rP rD : HttpResp),
      streamSize rs = N → 0 < N →
      tr (k + 1) = .ok rP → rP.statusCode ≥ 300 →
      tr (k + 2) = .ok rD → isExpiryPayload (parsePayload rD) = false →
      uploadStream (fuel + 1) st tr k rs cmpath ut =
        some (st, k + 3,
          [.req (mkRecord st "POST" "fileupload/init" (some (.obj [("filename", .str (pathBasename cmpath)), ("filepath", .str (uploadSubfolder cmpath)), ("uploadType", .str (resolveUploadType ut (pathBasename cmpath)))]))),
           .req (uploadChunkRecord st (getProp vI "uuid") 0 N .piped),
           .req (mkRecord st "DELETE" ("media/" ++ jsToStr (getProp vI "mediaId")) none)],
          if parseStatus rD ≥ 400 then .rejected (.resp (parsePayload rD))
          else .rejected (.httpError rP.statusMessage rP.statusCode)) ∧
      deletesOf
          [.req (mkRecord st "POST" "fileupload/init" (some (.obj [("filename", .str (pathBasename cmpath)), ("filepath", .str (uploadSubfolder cmpath)), ("uploadType", .str (resolveUploadType ut (pathBasename cmpath)))]))),
           .req (uploadChunkRecord st (getProp vI "uuid") 0 N .piped),
           .req (mkRecord st "DELETE" ("media/" ++ jsToStr (getProp vI "mediaId")) none)] =
        [mkRecord st "DELETE" ("media/" ++ jsToStr (getProp vI "mediaId")) none]) ∧
    (∀ (N : Nat) (e : String),
      streamSize rs = N → 0 < N →
      tr (k + 1) = .err e →
      uploadStream (fuel + 1) st tr k rs cmpath ut =
        some (st, k + 2,
          [.req (mkRecord st "POST" "fileupload/init" (some (.obj [("filename", .str (pathBasename cmpath)), ("filepath", .str (uploadSubfolder cmpath)), ("uploadType", .str (resolveUploadType ut (pathBasename cmpath)))]))),
           .req (uploadChunkRecord st (getProp vI "uuid") 0 N .piped)],
          .rejected (.transport e)) ∧
      deletesOf
          [.req (mkRecord st "POST" "fileupload/init" (some (.obj [("filename", .str (pathBasename cmpath)), ("filepath", .str (uploadSubfolder cmpath)), ("uploadType", .str (resolveUploadType ut (pathBasename cmpath)))]))),
           .req (uploadChunkRecord st (getProp vI "uuid") 0 N .piped)] = []) ∧
    (∀ (cs : List (List Nat)) (cbad : List Nat) (evrest : List SEv)
       (rOf : Nat → HttpResp) (rP rD : HttpResp),
      streamSize rs = 0 →
      rs.events = cs.map .data ++ (.data cbad :: evrest) →
      (∀ i, i < cs.length → tr (k + 1 + i) = .ok (rOf (k + 1 + i)) ∧ (rOf (k + 1 + i)).statusCode < 300) →
      tr (k + 1 + cs.length) = .ok rP → rP.statusCode ≥ 300 →
      tr (k + 2 + cs.length) = .ok rD → isExpiryPayload (parsePayload rD) = false →
      uploadStream (fuel + 1) st tr k rs cmpath ut =
        some (st, k + 3 + cs.length,
          .req (mkRecord st "POST" "fileupload/init" (some (.obj [("filename", .str (pathBasename cmpath)), ("filepath", .str (uploadSubfolder cmpath)), ("uploadType", .str (resolveUploadType ut (pathBasename cmpath)))]))) ::
            chunkTrace st (getProp vI "uuid") 0 cs ++
            [.req (uploadChunkRecord st (getProp vI "uuid") ((cs.map List.length).sum) cbad.length (.chunk cbad)),
             .req (mkRecord st "DELETE" ("media/" ++ jsToStr (getProp vI "mediaId")) none)],
          if parseStatus rD ≥ 400 then .rejected (.resp (parsePayload rD))
          else .rejected (.httpError rP.statusMessage rP.statusCode)) ∧
      deletesOf
          (.req (mkRecord st "POST" "fileupload/init" (some (.obj [("filename", .str (pathBasename cmpath)), ("filepath", .str (uploadSubfolder cmpath)), ("uploadType", .str (resolveUploadType ut (pathBasename cmpath)))]))) ::
            chunkTrace st (getProp vI "uuid") 0 cs ++
            [.req (uploadChunkRecord st (getProp vI "uuid") ((cs.map List.length).sum) cbad.length (.chunk cbad)),
             .req (mkRecord st "DELETE" ("media/" ++ jsToStr (getProp vI "mediaId")) none)]) =
        [mkRecord st "DELETE" ("media/" ++ jsToStr (getProp vI "mediaId")) none]) := by
  have hppI : parsePayload rI = .val vI := by unfold parsePayload; rw [hIb]
  have hneI : isExpiryPayload (parsePayload rI) = false := by rw [hppI]; exact hIne
  have hpsI : parseStatus rI = rI.statusCode := by unfold parseStatus; rw [hIb]
  refine ⟨?_, ?_, ?_⟩
  · intro N rP rD hsz hN hP hPge hD hDne
    constructor
    · unfold uploadStream
      dsimp only []
      rw [request_ok_nonexpiry fuel st tr k _ _ _ rI hI hneI]
      rw [hpsI, if_neg (by omega)]
      dsimp only []
      rw [hppI]
      dsimp only [respProp]
      rw [hsz, if_pos hN]
      rw [hP]
      dsimp only []
      rw [if_pos hPge]
      rw [uploadDelete_run fuel (k + 2) st tr _ _ _ rD hD hDne]
      rfl
    · simp [deletesOf, reqsOf, mkRecord, uploadChunkRecord, List.filter]
  · intro N e hsz hN hPt
    constructor
    · unfold uploadStream
      dsimp only []
      rw [request_ok_nonexpiry fuel st tr k _ _ _ rI hI hneI]
      rw [hpsI, if_neg (by omega)]
      dsimp only []
      rw [hppI]
      dsimp only [respProp]
      rw [hsz, if_pos hN]
      rw [hPt]
      simp
    · simp [deletesOf, reqsOf, mkRecord, uploadChunkRecord, List.filter]
  · intro cs cbad evrest rOf rP rD hsz hevs hok hP hPge hD hDne
    constructor
    · unfold uploadStream
      dsimp only []
      rw [request_ok_nonexpiry fuel st tr k _ _ _ rI hI hneI]
      rw [hpsI, if_neg (by omega)]
      dsimp only []
      rw [hppI]
      dsimp only [respProp]
      rw [hsz]
      rw [if_neg (by omega)]
      rw [hevs]
      rw [uploadLoop_data (fuel + 1) st tr _ _ _ rOf cs (k + 1) 0 _ _ hok]
      rw [uploadLoop]
      rw [hP]
      dsimp only []
      rw [if_pos hPge]
      rw [uploadDelete_run (fuel) (k + 1 + cs.length + 1) st tr _ _ _ rD
        (by simpa [Nat.add_assoc, Nat.add_comm, Nat.add_left_comm] using hD) hDne]
      simp [Nat.add_assoc, Nat.add_comm, Nat.add_left_comm]
    · have hct := deletesOf_chunkTrace st (getProp vI "uuid") cs 0
      simp only [deletesOf] at hct ⊢
      simp [reqsOf_cons_req, reqsOf_append, List.filter_append, List.filter, hct,
        mkRecord, uploadChunkRecord, reqsOf]

theorem putsOf_append (T1 T2 : List TEv) :
    putsOf (T1 ++ T2) = putsOf T1 ++ putsOf T2 := by
  simp [putsOf, reqsOf_append, List.filter_append]

/-- C4.  After a resolving init call: with known source length N > 0,
every completing run issues exactly one part PUT, to
`fileupload/part/{uuid}/0` with Content-Length N (whatever the transport
then does); with unknown length and chunks c1..cn followed by end-of-data,
the run issues one PUT per chunk in emission order — the i-th at offset
`len c1 + ... + len c(i-1)` with Content-Length `len ci` — and then posts
`fileupload/complete/{uuid}` after the end-of-data signal as the final
request. -/
theorem c4_upload_put_sequence (fuel k : Nat) (st : CMState) (tr : Transport)
    (rs : RStream) (cmpath : String) (ut : Option String)
    (rI : HttpResp) (vI : JVal)
    (hI : tr k = .ok rI) (hIb : rI.body = .json vI)
    (hIne : isExpiryVal vI = false) (hIst : rI.statusCode < 400) :
    (∀ N : Nat, streamSize rs = N → 0 < N →
      ∀ res : CMState × Nat × List TEv × Outcome,
        uploadStream (fuel + 1) st tr k rs cmpath ut = some res →
        putsOf res.2.2.1 = [uploadChunkRecord st (getProp vI "uuid") 0 N .piped]) ∧
    (∀ (cs : List (List Nat)) (rOf : Nat → HttpResp) (rC : HttpResp),
      streamSize rs = 0 →
      rs.events = cs.map .data ++ [.ended] →
      (∀ i, i < cs.length → tr (k + 1 + i) = .ok (rOf (k + 1 + i)) ∧ (rOf (k + 1 + i)).statusCode < 300) →
      tr (k + 1 + cs.length) = .ok rC → isExpiryPayload (parsePayload rC) = false →
      (uploadStream (fuel + 1) st tr k rs cmpath ut =
        some (st, k + 2 + cs.length,
          .req (mkRecord st "POST" "fileupload/init" (some (.obj [("filename", .str (pathBasename cmpath)), ("filepath", .str (uploadSubfolder cmpath)), ("uploadType", .str (resolveUploadType ut (pathBasename cmpath)))]))) ::
            chunkTrace st (getProp vI "uuid") 0 cs ++
            [.req (mkRecord st "POST" ("fileupload/complete/" ++ jsToStr (getProp vI "uuid")) none)],
          if parseStatus rC ≥ 400 then .rejected (.resp (parsePayload rC))
          else .resolved (.val vI))) ∧
      (∀ (i : Nat) (c : List Nat), cs[i]? = some c →
        (chunkTrace st (getProp vI "uuid") 0 cs)[i]? =
          some (.req (uploadChunkRecord st (getProp vI "uuid")
            (((cs.take i).map List.length).sum) c.length (.chunk c))))) := by
  have hppI : parsePayload rI = .val vI := by unfold parsePayload; rw [hIb]
  have hneI : isExpiryPayload (parsePayload rI) = false := by rw [hppI]; exact hIne
  have hpsI : parseStatus rI = rI.statusCode := by unfold parseStatus; rw [hIb]
  constructor
  · intro N hsz hN res h
    unfold uploadStream at h
    dsimp only [] at h
    rw [request_ok_nonexpiry fuel st tr k _ _ _ rI hI hneI] at h
    rw [hpsI, if_neg (by omega)] at h
    dsimp only [] at h
    rw [hppI] at h
    dsimp only [respProp] at h
    rw [hsz, if_pos hN] at h
    cases hP : tr (k + 1) with
    | err e =>
      rw [hP] at h
      dsimp only [] at h
      obtain rfl := Option.some.inj h
      simp [putsOf, reqsOf, List.filter, mkRecord, uploadChunkRecord]
    | ok r =>
      rw [hP] at h
      dsimp only [] at h
      by_cases hge : r.statusCode ≥ 300
      · rw [if_pos hge] at h
        unfold uploadDelete at h
        cases hq : request (fuel + 1) st tr (k + 1 + 1) "DELETE"
            ("media/" ++ jsToStr (getProp vI "mediaId")) none with
        | none => rw [hq] at h; exact absurd h (by simp)
        | some r2 =>
          obtain ⟨s2, k2, t2, out2⟩ := r2
          have hnp := request_no_put (fuel + 1) st tr (k + 1 + 1) _ _ _ _
            (by decide) hq
          rw [hq] at h
          cases out2 with
          | resolved v =>
            obtain rfl := Option.some.inj h
            dsimp only []
            rw [putsOf_append, hnp]
            simp [putsOf, reqsOf, List.filter, mkRecord, uploadChunkRecord]
          | rejected e2 =>
            obtain rfl := Option.some.inj h
            dsimp only []
            rw [putsOf_append, hnp]
            simp [putsOf, reqsOf, List.filter, mkRecord, uploadChunkRecord]
          | pending =>
            obtain rfl := Option.some.inj h
            dsimp only []
            rw [putsOf_append, hnp]
            simp [putsOf, reqsOf, List.filter, mkRecord, uploadChunkRecord]
      · rw [if_neg hge] at h
        unfold uploadComplete at h
        cases hq : request (fuel + 1) st tr (k + 1 + 1) "POST"
            ("fileupload/complete/" ++ jsToStr (getProp vI "uuid")) none with
        | none => rw [hq] at h; exact absurd h (by simp)
        | some r2 =>
          obtain ⟨s2, k2, t2, out2⟩ := r2
          have hnp := request_no_put (fuel + 1) st tr (k + 1 + 1) _ _ _ _
            (by decide) hq
          rw [hq] at h
          cases out2 with
          | resolved v =>
            obtain rfl := Option.some.inj h
            dsimp only []
            rw [putsOf_append, hnp]
            simp [putsOf, reqsOf, List.filter, mkRecord, uploadChunkRecord]
          | rejected e2 =>
            obtain rfl := Option.some.inj h
            dsimp only []
            rw [putsOf_append, hnp]
            simp [putsOf, reqsOf, List.filter, mkRecord, uploadChunkRecord]
          | pending =>
            obtain rfl := Option.some.inj h
            dsimp only []
            rw [putsOf_append, hnp]
            simp [putsOf, reqsOf, List.filter, mkRecord, uploadChunkRecord]
  · intro cs rOf rC hsz hevs hok hC hCne
    constructor
    · unfold uploadStream
      dsimp only []
      rw [request_ok_nonexpiry fuel st tr k _ _ _ rI hI hneI]
      rw [hpsI, if_neg (by omega)]
      dsimp only []
      rw [hppI]
      dsimp only [respProp]
      rw [hsz]
      rw [if_neg (by omega)]
      rw [hevs]
      rw [uploadLoop_data (fuel + 1) st tr _ _ _ rOf cs (k + 1) 0 _ _ hok]
      rw [uploadLoop]
      rw [uploadComplete_run fuel (k + 1 + cs.length) st tr _ _ _ rC
        (by simpa [Nat.add_assoc, Nat.add_comm, Nat.add_left_comm] using hC) hCne]
      simp [Nat.add_assoc, Nat.add_comm, Nat.add_left_comm]
    · intro i c h
      simpa using chunkTrace_getElem st (getProp vI "uuid") cs 0 i c h


/-- The concrete known-length run with a transport-dead PUT. -/
theorem uploadStream_run_put_transport_err :
    uploadStream 1 wLoggedIn trC3t 0 wStreamKnown "folder/a.jpg" none =
      some (wLoggedIn, 2,
        [.req (mkRecord wLoggedIn "POST" "fileupload/init" (some (.obj [("filename", .str "a.jpg"), ("filepath", .str "folder"), ("uploadType", .str "media_item")]))),
         .req (uploadChunkRecord wLoggedIn (.str "U1") 0 5 .piped)],
        .rejected (.transport "EPIPE")) := by
  unfold uploadStream
  dsimp only []
  rw [request_ok_nonexpiry 0 wLoggedIn trC3t 0 _ _ _
    { statusCode := 200, statusMessage := "OK", body := .json wInitResp } rfl (by decide)]
  rw [show parseStatus { statusCode := 200, statusMessage := "OK", body := .json wInitResp } = 200 from rfl]
  rw [if_neg (by decide)]
  dsimp only []
  rw [show parsePayload { statusCode := 200, statusMessage := "OK", body := .json wInitResp } = .val wInitResp from rfl]
  dsimp only [respProp]
  rw [show streamSize wStreamKnown = 5 from rfl]
  rw [if_pos (by decide)]
  rw [show trC3t 1 = .err "EPIPE" from rfl]
  rfl

/-- C3 counterexample.  A transport-level failure of the part-upload PUT
(`.on('error', reject)`, src/index.js:274) rejects the upload promise
directly with the transport error: the run's trace contains NO compensating
DELETE, contradicting the claim's "including transport-level failure of
the PUT". -/
theorem c3_counterexample :
    (uploadStream 1 wLoggedIn trC3t 0 wStreamKnown "folder/a.jpg" none =
      some (wLoggedIn, 2,
        [.req (mkRecord wLoggedIn "POST" "fileupload/init" (some (.obj [("filename", .str "a.jpg"), ("filepath", .str "folder"), ("uploadType", .str "media_item")]))),
         .req (uploadChunkRecord wLoggedIn (.str "U1") 0 5 .piped)],
        .rejected (.transport "EPIPE"))) ∧
    deletesOf
        [.req (mkRecord wLoggedIn "POST" "fileupload/init" (some (.obj [("filename", .str "a.jpg"), ("filepath", .str "folder"), ("uploadType", .str "media_item")]))),
         .req (uploadChunkRecord wLoggedIn (.str "U1") 0 5 .piped)] = [] :=
  ⟨uploadStream_run_put_transport_err, rfl⟩

/-- Witness for C3: a 500-answered known-length PUT followed by a
resolving delete rejects with the PUT's error after exactly that delete;
the unknown-length source with chunks `[1,2]`, `[3]`, `[4]` whose third
PUT is answered 500 deletes once and rejects likewise. -/
theorem c3_witness :
    (uploadStream 1 wLoggedIn trC3s 0 wStreamKnown "folder/a.jpg" none =
      some (wLoggedIn, 3,
        [.req (mkRecord wLoggedIn "POST" "fileupload/init" (some (.obj [("filename", .str "a.jpg"), ("filepath", .str "folder"), ("uploadType", .str "media_item")]))),
         .req (uploadChunkRecord wLoggedIn (.str "U1") 0 5 .piped),
         .req (mkRecord wLoggedIn "DELETE" "media/42" none)],
        .rejected (.httpError "Internal Server Error" 500))) ∧
    (uploadStream 1 wLoggedIn trC3u 0 wStreamChunksBad "folder/a.jpg" none =
      some (wLoggedIn, 5,
        .req (mkRecord wLoggedIn "POST" "fileupload/init" (some (.obj [("filename", .str "a.jpg"), ("filepath", .str "folder"), ("uploadType", .str "media_item")]))) ::
          chunkTrace wLoggedIn (.str "U1") 0 [[1, 2], [3]] ++
          [.req (uploadChunkRecord wLoggedIn (.str "U1") 3 1 (.chunk [4])),
           .req (mkRecord wLoggedIn "DELETE" "media/42" none)],
        .rejected (.httpError "Internal Server Error" 500))) := by
  have hmain := c3_amended_compensating_delete 0 0 wLoggedIn trC3s wStreamKnown
    "folder/a.jpg" none
    { statusCode := 200, statusMessage := "OK", body := .json wInitResp }
    wInitResp rfl rfl (by decide) (by decide)
  have ha := (hmain.1 5
    { statusCode := 500, statusMessage := "Internal Server Error", body := .json (.obj []) }
    wOk200 rfl (by decide) rfl (by decide) rfl (by decide)).1
  have hmain2 := c3_amended_compensating_delete 0 0 wLoggedIn trC3u wStreamChunksBad
    "folder/a.jpg" none
    { statusCode := 200, statusMessage := "OK", body := .json wInitResp }
    wInitResp rfl rfl (by decide) (by decide)
  have hc := (hmain2.2.2 [[1, 2], [3]] [4] [.ended] (fun _ => wOk200)
    { statusCode := 500, statusMessage := "Internal Server Error", body := .json (.obj []) }
    wOk200 rfl rfl
    (by intro i hi
        simp only [List.length_cons, List.length_nil] at hi
        interval_cases i <;> exact ⟨rfl, by decide⟩)
    rfl (by decide) rfl (by decide)).1
  constructor
  · simpa [wInitResp, getProp, lookupField, parseStatus, parsePayload, wOk200,
      jsToStr] using ha
  · simpa [wInitResp, getProp, lookupField, parseStatus, parsePayload, wOk200,
      jsToStr] using hc

/-- Witness for C4: the known-length run issues exactly the single piped
PUT at offset 0 with Content-Length 5; the unknown-length run with chunks
`[1,2]` and `[3]` issues the two PUTs in order (the second at offset 2
with Content-Length 1) and ends with the completion POST. -/
theorem c4_witness :
    putsOf
        [.req (mkRecord wLoggedIn "POST" "fileupload/init" (some (.obj [("filename", .str "a.jpg"), ("filepath", .str "folder"), ("uploadType", .str "media_item")]))),
         .req (uploadChunkRecord wLoggedIn (.str "U1") 0 5 .piped)] =
      [uploadChunkRecord wLoggedIn (.str "U1") 0 5 .piped] ∧
    (uploadStream 1 wLoggedIn trC4u 0 wStreamChunks "folder/a.jpg" none =
      some (wLoggedIn, 4,
        .req (mkRecord wLoggedIn "POST" "fileupload/init" (some (.obj [("filename", .str "a.jpg"), ("filepath", .str "folder"), ("uploadType", .str "media_item")]))) ::
          chunkTrace wLoggedIn (.str "U1") 0 [[1, 2], [3]] ++
          [.req (mkRecord wLoggedIn "POST" "fileupload/complete/U1" none)],
        .resolved (.val wInitResp))) ∧
    (chunkTrace wLoggedIn (.str "U1") 0 [[1, 2], [3]])[1]? =
      some (.req (uploadChunkRecord wLoggedIn (.str "U1") 2 1 (.chunk [3]))) := by
  have hmain := c4_upload_put_sequence 0 0 wLoggedIn trC3t wStreamKnown
    "folder/a.jpg" none
    { statusCode := 200, statusMessage := "OK", body := .json wInitResp }
    wInitResp rfl rfl (by decide) (by decide)
  have ha := hmain.1 5 rfl (by decide) _ uploadStream_run_put_transport_err
  have hmain2 := c4_upload_put_sequence 0 0 wLoggedIn trC4u wStreamChunks
    "folder/a.jpg" none
    { statusCode := 200, statusMessage := "OK", body := .json wInitResp }
    wInitResp rfl rfl (by decide) (by decide)
  have hb := hmain2.2 [[1, 2], [3]] (fun _ => wOk200) wOk200 rfl rfl
    (by intro i hi
        simp only [List.length_cons, List.length_nil] at hi
        interval_cases i <;> exact ⟨rfl, by decide⟩)
    rfl (by decide)
  refine ⟨?_, ?_, ?_⟩
  · simpa [wInitResp, getProp, lookupField] using ha
  · simpa [wInitResp, getProp, lookupField, parseStatus, parsePayload, wOk200,
      jsToStr] using hb.1
  · simpa [wInitResp, getProp, lookupField] using hb.2 1 [3] rfl

end scjs
